import Mathlib

/-!
Tixte client: request shaping and outcome normalisation.

A shallow embedding of `src/index.js` (class `Client`): the constructor and the
seven asynchronous operations.  JavaScript values are a first-order datatype,
an `async` method is a function returning the list of requests it handed to the
transport together with the way its promise settles (`.ok v` for a promise
resolved with `v`, `.error e` for a promise rejected with `e`; for the
synchronous constructor `.error e` is a thrown exception).  Every step of the
source that can throw (a property read, a string conversion in a template
literal, `fs.createReadStream`, `Buffer.from`, the transport) can throw in the
embedding.
-/

namespace Tixte

/-- The numbers of the language.  A finite double is the dyadic `m * 2 ^ e`;
the program only asks of a number whether it is falsy and how it prints. -/
inductive JSNumber where
  | nan
  | infinity (negative : Bool)
  | finite (m : Int) (e : Int)

/-- The values the program can be handed.  Objects are plain: string-keyed data
properties over `Object.prototype`; a property may hold a function, which the
host runs when the engine calls it. -/
inductive JSVal where
  | undefined
  | null
  | bool (b : Bool)
  | number (n : JSNumber)
  | bigint (n : Int)
  | string (s : String)
  | symbol (description : String)
  | function (id : Nat)
  | object (fields : List (String × JSVal))
  | array (items : List JSVal)
  | buffer (bytes : List Nat)
  | stream (path : String)
  | error (name : String) (message : String)

/-- The result of `typeof v`. -/
def typeOf : JSVal → String
  | .undefined => "undefined"
  | .null => "object"
  | .bool _ => "boolean"
  | .number _ => "number"
  | .bigint _ => "bigint"
  | .string _ => "string"
  | .symbol _ => "symbol"
  | .function _ => "function"
  | .object _ => "object"
  | .array _ => "object"
  | .buffer _ => "object"
  | .stream _ => "object"
  | .error _ _ => "object"

/-- Truthiness: `!v` is `!(truthy v)`. -/
def truthy : JSVal → Bool
  | .undefined => false
  | .null => false
  | .bool b => b
  | .number .nan => false
  | .number (.infinity _) => true
  | .number (.finite m _) => m != 0
  | .bigint n => n != 0
  | .string s => s != ""
  | _ => true

/-- The value is a primitive (not an object, not a function). -/
def isPrimitive : JSVal → Bool
  | .undefined => true
  | .null => true
  | .bool _ => true
  | .number _ => true
  | .bigint _ => true
  | .string _ => true
  | .symbol _ => true
  | _ => false

/-- The HTTP verbs the client uses (`get`, `post` and `delete` of the HTTP library). -/
inductive Method where
  | GET
  | POST
  | DELETE
  deriving DecidableEq

/-- One part of a multipart body: the field name, the content and the file name
the encoder writes in the header of the part. -/
structure Part where
  name : String
  content : JSVal
  filename : String

/-- A multipart body under construction: the encoder's boundary and the parts
appended so far. -/
structure FormData where
  boundary : String
  parts : List Part

/-- An outbound request: verb, URL, the `headers` object of the call's
configuration, and the body (only the upload has one). -/
structure Request where
  method : Method
  url : String
  headers : List (String × JSVal)
  body : Option FormData

/-- The parts of the runtime that are not the program: the engine's printing of
numbers that are not integers below `10 ^ 21`, of buffers and of functions, what
a function held by a property does when the engine calls it as a method (its
result, or what it throws), the conversion `Buffer.from` applies to objects that
are not buffers, the boundary the multipart encoder picks, and the HTTP
transport (`.ok res` when the call resolves with the response `res`,
`.error err` when it rejects with `err`). -/
structure Host where
  numberToString : Int → Int → String
  bufferToString : List Nat → String
  functionToString : Nat → String
  callMethod : Nat → JSVal → Except JSVal JSVal
  bufferFromObject : JSVal → Except JSVal JSVal
  boundary : String
  transport : Request → Except JSVal JSVal

/-- Decimal digits of a natural number, most significant first. -/
def decimal (n : Nat) : String :=
  if n = 0 then "0" else String.mk ((Nat.digits 10 n).reverse.map Nat.digitChar)

/-- Decimal digits of an integer, with a minus sign when negative. -/
def decimalInt (m : Int) : String :=
  if m < 0 then "-" ++ decimal m.natAbs else decimal m.natAbs

/-- String conversion of a number: an integer of absolute value below
`10 ^ 21` prints in decimal, any other finite number as the engine prints it. -/
def numToStr (h : Host) : JSNumber → String
  | .nan => "NaN"
  | .infinity false => "Infinity"
  | .infinity true => "-Infinity"
  | .finite m e =>
    if e = 0 ∧ m.natAbs < 10 ^ 21 then decimalInt m else h.numberToString m e

/-- The `TypeError` of converting a Symbol to a string. -/
def symbolError : JSVal :=
  .error "TypeError" "Cannot convert a Symbol value to a string"

/-- The `TypeError` of converting an object that has no usable `toString` or
`valueOf` to a primitive. -/
def objectError : JSVal :=
  .error "TypeError" "Cannot convert object to primitive value"

/-- String conversion of a primitive; a Symbol throws. -/
def primToStr (h : Host) : JSVal → Except JSVal String
  | .undefined => .ok "undefined"
  | .null => .ok "null"
  | .bool true => .ok "true"
  | .bool false => .ok "false"
  | .number n => .ok (numToStr h n)
  | .bigint n => .ok (decimalInt n)
  | .string s => .ok s
  | .symbol _ => .error symbolError
  | _ => .error objectError

/-- One step of the conversion of an object to a primitive: a method that is a
function is called on the object and its result kept when it is a primitive; a
method that is not callable, or returns an object, is passed over. -/
def tryMethod (h : Host) (this method : JSVal) : Except JSVal (Option JSVal) :=
  match method with
  | .function f =>
    match h.callMethod f this with
    | .error e => .error e
    | .ok r => if isPrimitive r then .ok (some r) else .ok none
  | _ => .ok none

/-- Conversion of a plain object to a primitive with hint string: `toString`,
then `valueOf`.  Without an own `toString` the inherited one answers
`[object Object]`; the inherited `valueOf` returns the object itself. -/
def objectToPrimitive (h : Host) (fields : List (String × JSVal)) : Except JSVal JSVal :=
  match fields.lookup "toString" with
  | none => .ok (.string "[object Object]")
  | some method =>
    match tryMethod h (.object fields) method with
    | .error e => .error e
    | .ok (some r) => .ok r
    | .ok none =>
      match fields.lookup "valueOf" with
      | none => .error objectError
      | some method2 =>
        match tryMethod h (.object fields) method2 with
        | .error e => .error e
        | .ok (some r) => .ok r
        | .ok none => .error objectError

mutual
/-- String conversion of a value, as applied by a template literal. -/
def toStr (h : Host) : JSVal → Except JSVal String
  | .undefined => .ok "undefined"
  | .null => .ok "null"
  | .bool true => .ok "true"
  | .bool false => .ok "false"
  | .number n => .ok (numToStr h n)
  | .bigint n => .ok (decimalInt n)
  | .string s => .ok s
  | .symbol _ => .error symbolError
  | .function f => .ok (h.functionToString f)
  | .object fields =>
    match objectToPrimitive h fields with
    | .error e => .error e
    | .ok r => primToStr h r
  | .array items => joinStr h items
  | .buffer bytes => .ok (h.bufferToString bytes)
  | .stream _ => .ok "[object Object]"
  | .error name message =>
    if name = "" then .ok message
    else if message = "" then .ok name
    else .ok (name ++ ": " ++ message)
/-- The comma-separated join an array prints as. -/
def joinStr (h : Host) : List JSVal → Except JSVal String
  | [] => .ok ""
  | [v] => elemStr h v
  | v :: w :: rest =>
    match elemStr h v with
    | .error e => .error e
    | .ok s =>
      match joinStr h (w :: rest) with
      | .error e => .error e
      | .ok t => .ok (s ++ "," ++ t)
/-- One element of an array join; `null` and `undefined` print as nothing. -/
def elemStr (h : Host) : JSVal → Except JSVal String
  | .undefined => .ok ""
  | .null => .ok ""
  | v => toStr h v
end

/-- The string conversion of the value does not throw. -/
def convertible (h : Host) (v : JSVal) : Bool :=
  match toStr h v with
  | .ok _ => true
  | .error _ => false

/-- The `TypeError` the engine throws when a property of `undefined` or `null`
is read. -/
def nullishRead (what : String) (key : String) : JSVal :=
  .error "TypeError" ("Cannot read properties of " ++ what ++ " (reading \x27" ++ key ++ "\x27)")

/-- Property read `v.key`.  The program reads only `api_key`, `data`,
`response`, `extension` and `fileName`, none of which is a built-in property of
a primitive, a function, an array, a buffer, a stream or an error. -/
def getProp (v : JSVal) (key : String) : Except JSVal JSVal :=
  match v with
  | .undefined => .error (nullishRead "undefined" key)
  | .null => .error (nullishRead "null" key)
  | .object fields => .ok ((fields.lookup key).getD .undefined)
  | .error name message =>
    if key = "message" then .ok (.string message)
    else if key = "name" then .ok (.string name)
    else .ok .undefined
  | _ => .ok .undefined

/-- Assignment of one key of an object literal: an existing key keeps its place
and takes the new value, a new key goes last. -/
def setField (fields : List (String × JSVal)) (key : String) (v : JSVal) :
    List (String × JSVal) :=
  if fields.any (fun p => p.1 == key) then
    fields.map (fun p => if p.1 == key then (key, v) else p)
  else fields ++ [(key, v)]

/-- Object spread `{ ...target, ...source }` on top of the keys already written. -/
def spread (target source : List (String × JSVal)) : List (String × JSVal) :=
  source.foldl (fun acc p => setField acc p.1 p.2) target

/-- The `new Error(message)` of the program. -/
def mkError (message : String) : JSVal :=
  .error "Error" message

/-- What a call leaves behind: the requests handed to the transport, in order,
and how the call settles. -/
abbrev Run (α : Type) := List Request × Except JSVal α

/-- The client object: its only field is the stored token. -/
structure Client where
  api_key : JSVal

/-- The constructor, `src/index.js` lines 6-10. -/
def Client.constructor (options : JSVal) : Run Client :=
  match getProp options "api_key" with
  | .error e => ([], .error e)
  | .ok key =>
    if !truthy key then ([], .error (mkError "\"api_key\" cannot be undefined"))
    else ([], .ok { api_key := key })

/-- The handler shared by every `catch (err)`: `return err.response.data`. -/
def catchHandler (err : JSVal) : Except JSVal JSVal := do
  let response ← getProp err "response"
  getProp response "data"

/-- A `try { body } catch (err) { return err.response.data }` block. -/
def tryCatch (body : Run JSVal) : Run JSVal :=
  (body.1,
    match body.2 with
    | .ok v => .ok v
    | .error err => catchHandler err)

/-- The configuration every operation but the upload passes:
`{ headers: { "Authorization": this.api_key } }`. -/
def authHeaders (c : Client) : List (String × JSVal) :=
  [("Authorization", c.api_key)]

/-- Operation `getSize`, lines 16-28. -/
def getSize (h : Host) (c : Client) : Run JSVal :=
  tryCatch (
    let req : Request :=
      ⟨.GET, "https://api.tixte.com/v1/user/uploads/size", authHeaders c, none⟩
    ([req], do
      let res ← h.transport req
      getProp res "data"))

/-- Operation `getUploads`, lines 36-51; the checks, and the template literals
of their messages, are inside the `try`. -/
def getUploads (h : Host) (c : Client) (amount page : JSVal) : Run JSVal :=
  tryCatch (
    if !truthy amount || typeOf amount != "number" then
      match toStr h amount with
      | .error e => ([], .error e)
      | .ok shown => ([], .ok (mkError (shown ++ " is not a valid value for \"amount\".")))
    else if !truthy page || typeOf page != "number" then
      match toStr h page with
      | .error e => ([], .error e)
      | .ok shown => ([], .ok (mkError (shown ++ " is not a valid value for \"page\".")))
    else
      match toStr h page with
      | .error e => ([], .error e)
      | .ok pageText =>
        match toStr h amount with
        | .error e => ([], .error e)
        | .ok amountText =>
          let req : Request :=
            ⟨.GET, "https://api.tixte.com/v1/user/uploads?page=" ++ pageText ++ "&amount="
              ++ amountText, authHeaders c, none⟩
          ([req], do
            let res ← h.transport req
            let data ← getProp res "data"
            getProp data "data"))

/-- Operation `getUserInfo`, lines 57-69. -/
def getUserInfo (h : Host) (c : Client) : Run JSVal :=
  tryCatch (
    let req : Request := ⟨.GET, "https://api.tixte.com/v1/users/@me", authHeaders c, none⟩
    ([req], do
      let res ← h.transport req
      let data ← getProp res "data"
      getProp data "data"))

/-- Operation `getUserInfoByName`, lines 76-88; `user` is not checked, and the
template literal of the URL is inside the `try`. -/
def getUserInfoByName (h : Host) (c : Client) (user : JSVal) : Run JSVal :=
  tryCatch (
    match toStr h user with
    | .error e => ([], .error e)
    | .ok userText =>
      let req : Request :=
        ⟨.GET, "https://api.tixte.com/v1/users/" ++ userText, authHeaders c, none⟩
      ([req], do
        let res ← h.transport req
        let data ← getProp res "data"
        getProp data "data"))

/-- Operation `getUserDomains`, lines 94-106. -/
def getUserDomains (h : Host) (c : Client) : Run JSVal :=
  tryCatch (
    let req : Request := ⟨.GET, "https://api.tixte.com/v1/user/domains", authHeaders c, none⟩
    ([req], do
      let res ← h.transport req
      getProp res "data"))

/-- The headers the multipart encoder reports, `fd.getHeaders()`: the content
type with the boundary of the body. -/
def FormData.getHeaders (fd : FormData) : List (String × JSVal) :=
  [("content-type", .string ("multipart/form-data; boundary=" ++ fd.boundary))]

/-- The last component of a path, `path.basename` on a POSIX system: trailing
slashes are dropped, then the text after the last slash is kept. -/
def basename (path : String) : String :=
  String.mk (((path.toList.reverse.dropWhile (fun ch => ch == '/')).takeWhile
    (fun ch => ch != '/')).reverse)

/-- The call `fd.append(name, content, filename)`: the encoder writes the last
path component of the file name it is given in the header of the part. -/
def FormData.append (fd : FormData) (name : String) (content : JSVal) (filename : String) :
    FormData :=
  { fd with parts := fd.parts ++ [⟨name, content, basename filename⟩] }

/-- The error `fs.createReadStream` throws for a path that holds a NUL
character; only its being a native error without `response` matters to the
program. -/
def invalidPathError : JSVal :=
  .error "TypeError"
    "The argument \x27path\x27 must be a string, Uint8Array, or URL without null bytes."

/-- The call `fs.createReadStream(path)` on a non-empty string: the path is
validated at once (a NUL character throws), the file is opened later, when the
stream is read. -/
def createReadStream (path : String) : Except JSVal JSVal :=
  if path.toList.contains (Char.ofNat 0) then .error invalidPathError
  else .ok (.stream path)

/-- The call `Buffer.from(v)`: a buffer is copied, any other value is converted
by the host (or refused with a `TypeError`). -/
def bufferFrom (h : Host) (v : JSVal) : Except JSVal JSVal :=
  match v with
  | .buffer bytes => .ok (.buffer bytes)
  | w => h.bufferFromObject w

/-- The default initialiser of the parameter `options` of `uploadImage`,
`{ extension: "png", fileName: "Image-" + Date.now() }`, where `now` is what
`Date.now()` returns when the initialiser runs. -/
def defaultOptions (h : Host) (now : Int) : JSVal :=
  .object [("extension", .string "png"),
    ("fileName", .string ("Image-" ++ numToStr h (.finite now 0)))]

/-- Binding of a parameter with a default initialiser: the initialiser runs, at
the call, when the argument is `undefined` (omitted or passed so). -/
def orDefault (arg : JSVal) (dflt : JSVal) : JSVal :=
  match arg with
  | .undefined => dflt
  | v => v

/-- The content of the part, line 124:
`typeof (imagePath) === "string" ? fs.createReadStream(imagePath) : Buffer.from(imagePath)`. -/
def fileOf (h : Host) (imagePath : JSVal) : Except JSVal JSVal :=
  match imagePath with
  | .string path => createReadStream path
  | v => bufferFrom h v

/-- The `try` block of `uploadImage`, lines 122-137. -/
def uploadBody (h : Host) (c : Client) (imagePath domain options : JSVal) : Run JSVal :=
  let fd : FormData := ⟨h.boundary, []⟩
  match fileOf h imagePath with
  | .error e => ([], .error e)
  | .ok file =>
    match getProp options "fileName" with
    | .error e => ([], .error e)
    | .ok fileName =>
      match toStr h fileName with
      | .error e => ([], .error e)
      | .ok fileNameText =>
        match getProp options "extension" with
        | .error e => ([], .error e)
        | .ok extension =>
          match toStr h extension with
          | .error e => ([], .error e)
          | .ok extensionText =>
            let fd := fd.append "file" file (fileNameText ++ "." ++ extensionText)
            let req : Request :=
              ⟨.POST, "https://api.tixte.com/v1/upload",
                spread [("Authorization", c.api_key), ("domain", domain),
                  ("Content-Type", .string "multipart/form-data")] fd.getHeaders,
                some fd⟩
            ([req], do
              let res ← h.transport req
              getProp res "data")

/-- The result of a failed check whose message interpolates `shown`: the
template literal is evaluated first and may throw. -/
def invalidValue (h : Host) (shown : JSVal) (param : String) : Run JSVal :=
  match toStr h shown with
  | .error e => ([], .error e)
  | .ok text =>
    ([], .ok (mkError ("\"" ++ text ++ "\" is not a valid value for \"" ++ param ++ "\"")))

/-- Operation `uploadImage`, lines 117-141; `now` is the reading of the clock
at the call, `options = .undefined` is an omitted argument.  The three checks
are outside the `try`. -/
def uploadImage (h : Host) (c : Client) (now : Int) (imagePath domain options : JSVal) :
    Run JSVal :=
  let options := orDefault options (defaultOptions h now)
  if !truthy imagePath || (typeOf imagePath != "string" && typeOf imagePath != "object") then
    invalidValue h imagePath "imagePath"
  else if !truthy domain || typeOf domain != "string" then
    invalidValue h domain "domain"
  else if !truthy options || typeOf options != "object" then
    ([], .ok (mkError "\"options is not a valid object or is missing keys\""))
  else
    match getProp options "extension" with
    | .error e => ([], .error e)
    | .ok extension =>
      if !truthy extension then
        ([], .ok (mkError "\"options is not a valid object or is missing keys\""))
      else
        match getProp options "fileName" with
        | .error e => ([], .error e)
        | .ok fileName =>
          if !truthy fileName then
            ([], .ok (mkError "\"options is not a valid object or is missing keys\""))
          else tryCatch (uploadBody h c imagePath domain options)

/-- Operation `deleteImage`, lines 148-162; the check is outside the `try`. -/
def deleteImage (h : Host) (c : Client) (imageID : JSVal) : Run JSVal :=
  if !truthy imageID || typeOf imageID != "string" then
    invalidValue h imageID "imageID"
  else
    tryCatch (
      match toStr h imageID with
      | .error e => ([], .error e)
      | .ok idText =>
        let req : Request :=
          ⟨.DELETE, "https://api.tixte.com/v1/user/uploads/" ++ idText, authHeaders c, none⟩
        ([req], do
          let res ← h.transport req
          getProp res "data"))

/-- The request an upload issues for a part with the given content and recorded
file name, lines 127-135. -/
def uploadRequest (h : Host) (c : Client) (domain file : JSVal) (filename : String) : Request :=
  ⟨.POST, "https://api.tixte.com/v1/upload",
    spread [("Authorization", c.api_key), ("domain", domain),
      ("Content-Type", .string "multipart/form-data")]
      (FormData.getHeaders ⟨h.boundary, [⟨"file", file, filename⟩]⟩),
    some ⟨h.boundary, [⟨"file", file, filename⟩]⟩⟩

/-- Lookup of a header by its exact name. -/
def header (req : Request) (name : String) : Option JSVal :=
  req.headers.lookup name

/-- The value read at a key is truthy (`false` also when the read throws). -/
def propTruthy (v : JSVal) (key : String) : Bool :=
  match getProp v key with
  | .ok w => truthy w
  | .error _ => false

/-- The argument passes the check of a count of `getUploads`, lines 38 and 39:
a truthy number. -/
def countAccepted (v : JSVal) : Bool :=
  truthy v && typeOf v == "number"

/-- The arguments pass both checks of `getUploads`. -/
def passesGetUploadsChecks (amount page : JSVal) : Bool :=
  countAccepted amount && countAccepted page

/-- The source passes the check of line 118: a truthy string or object. -/
def sourceAccepted (imagePath : JSVal) : Bool :=
  truthy imagePath && (typeOf imagePath == "string" || typeOf imagePath == "object")

/-- The domain passes the check of line 119: a non-empty string. -/
def domainAccepted (domain : JSVal) : Bool :=
  truthy domain && typeOf domain == "string"

/-- The options in effect pass the check of line 120: a truthy object with
truthy `extension` and `fileName`. -/
def optionsAccepted (o : JSVal) : Bool :=
  truthy o && typeOf o == "object" && propTruthy o "extension" && propTruthy o "fileName"

/-- The arguments pass the three checks of `uploadImage`, lines 118-120, with
the options in effect at a call made when the clock reads `now`. -/
def passesUploadChecks (h : Host) (now : Int) (imagePath domain options : JSVal) : Bool :=
  sourceAccepted imagePath && domainAccepted domain
    && optionsAccepted (orDefault options (defaultOptions h now))

/-- The argument passes the check of `deleteImage`, line 149. -/
def passesDeleteCheck (imageID : JSVal) : Bool :=
  truthy imageID && typeOf imageID == "string"

/-- The transport outcome is a response whose payload (`res.data`) can be read,
or an error that carries a response (`err.response.data` can be read). -/
def CarriesBody (outcome : Except JSVal JSVal) : Prop :=
  (∃ res p, outcome = .ok res ∧ getProp res "data" = .ok p) ∨
  (∃ err response b, outcome = .error err ∧ getProp err "response" = .ok response ∧
    getProp response "data" = .ok b)

/-- The payload of a response, when the outcome is one, is neither `undefined`
nor `null`. -/
def PayloadNotNullish (outcome : Except JSVal JSVal) : Prop :=
  ∀ res p, outcome = .ok res → getProp res "data" = .ok p → p ≠ .undefined ∧ p ≠ .null

/-- The file names of the parts of the bodies a call handed to the transport. -/
def partFilenames (r : Run JSVal) : List (List String) :=
  r.1.map (fun req => match req.body with
    | some fd => fd.parts.map (fun p => p.filename)
    | none => [])

/-- The parts of the bodies a call handed to the transport. -/
def partsSent (r : Run JSVal) : List (List Part) :=
  r.1.map (fun req => match req.body with
    | some fd => fd.parts
    | none => [])

/-- A host for the examples: the transport settles every call the same way,
buffers of bytes below 128 print as their characters, every function returns
the object it is called on, and `Buffer.from` takes buffers only.  The examples
print no number other than an integer below `10 ^ 21`. -/
def exampleHost (outcome : Except JSVal JSVal) : Host where
  numberToString := fun m e => decimalInt m ++ "*2^" ++ decimalInt e
  bufferToString := fun bytes => String.mk (bytes.map Char.ofNat)
  functionToString := fun _ => "function () \x7b [native code] \x7d"
  callMethod := fun _ this => .ok this
  bufferFromObject := fun _ =>
    .error (.error "TypeError" "The first argument must be of type string or an instance of Buffer")
  boundary := "------boundary"
  transport := fun _ => outcome

/-- A client for the examples. -/
def exampleClient : Client :=
  ⟨.string "token"⟩

/-- The error body of the examples, an object with the key `error`. -/
def unauthorizedBody : JSVal :=
  .object [("error", .string "unauthorized")]

/-- A transport error that carries a response with the body `unauthorizedBody`. -/
def unauthorizedError : JSVal :=
  .object [("response", .object [("status", .number (.finite 401 0)), ("data", unauthorizedBody)])]

/-- A transport error that carries no response (the connection failed). -/
def networkError : JSVal :=
  .error "Error" "connect ECONNREFUSED"

/-- A successful response whose payload has the user object under `data`. -/
def userResponse : JSVal :=
  .object [("status", .number (.finite 200 0)),
    ("data", .object [("data", .object [("id", .number (.finite 1 0))])])]

/-- A successful response whose payload is `null`. -/
def nullResponse : JSVal :=
  .object [("status", .number (.finite 200 0)), ("data", .null)]

/-- A positive count, for the examples. -/
def ten : JSVal :=
  .number (.finite 10 0)

/-- Complete options, for the examples. -/
def jpgOptions : JSVal :=
  .object [("extension", .string "jpg"), ("fileName", .string "cat")]

/-- Options whose file name holds a directory, for the examples. -/
def nestedOptions : JSVal :=
  .object [("extension", .string "jpg"), ("fileName", .string "dir/cat")]

/-- An object whose own `toString` is not callable, for the examples. -/
def unprintable : JSVal :=
  .object [("toString", .null)]

/-- A path with a NUL character, for the examples. -/
def nulPath : String :=
  String.mk ['a', Char.ofNat 0, 'b']

/-! Basic facts about printing, paths and property reads. -/

theorem digitChar_toNat (d : Nat) (hd : d < 10) : (Nat.digitChar d).toNat - 48 = d := by
  interval_cases d <;> rfl

theorem digitChar_ne_slash (d : Nat) (hd : d < 10) : Nat.digitChar d ≠ '/' := by
  interval_cases d <;> decide

/-- The digits a decimal string spells, read back. -/
theorem decimal_digits (n : Nat) (hn : n ≠ 0) :
    (decimal n).data.map (fun ch => ch.toNat - 48) = (Nat.digits 10 n).reverse := by
  simp only [decimal, hn, if_false, List.map_map]
  conv_rhs => rw [← List.map_id (Nat.digits 10 n).reverse]
  apply List.map_congr_left
  intro d hd
  have hlt : d < 10 := Nat.digits_lt_base (by decide) (List.mem_reverse.mp hd)
  simpa using digitChar_toNat d hlt

theorem decimal_zero_digits : (decimal 0).data.map (fun ch => ch.toNat - 48) = [0] := by
  simp [decimal]

/-- Different natural numbers print differently. -/
theorem decimal_injective (a b : Nat) (hab : decimal a = decimal b) : a = b := by
  have key : ∀ n, n ≠ 0 → decimal n ≠ decimal 0 := by
    intro n hn heq
    have h1 := decimal_digits n hn
    rw [heq, decimal_zero_digits] at h1
    have h2 : Nat.digits 10 n = [0] := by
      have := congrArg List.reverse h1
      simpa using this.symm
    have h3 := Nat.getLast_digit_ne_zero 10 hn
    simp [h2] at h3
  by_cases ha : a = 0
  · by_cases hb : b = 0
    · rw [ha, hb]
    · exact absurd (ha ▸ hab).symm (key b hb)
  · by_cases hb : b = 0
    · exact absurd (hb ▸ hab) (key a ha)
    · have h1 := decimal_digits a ha
      rw [hab, decimal_digits b hb] at h1
      exact Nat.digits_inj_iff.mp (List.reverse_injective h1.symm)

theorem decimal_no_slash (n : Nat) : ∀ ch ∈ (decimal n).data, ch ≠ '/' := by
  intro ch hch
  by_cases hn : n = 0
  · subst hn
    have : (decimal 0).data = ['0'] := by simp [decimal]
    rw [this] at hch
    simp at hch
    subst hch
    decide
  · simp only [decimal, hn, if_false, List.mem_map] at hch
    obtain ⟨d, hd, rfl⟩ := hch
    exact digitChar_ne_slash d (Nat.digits_lt_base (by decide) (List.mem_reverse.mp hd))

/-- A path without a slash is its own last component. -/
theorem basename_of_no_slash (s : String) (hs : ∀ ch ∈ s.data, ch ≠ '/') : basename s = s := by
  have h1 : s.toList.reverse.dropWhile (fun ch => ch == '/') = s.toList.reverse := by
    cases hrev : s.toList.reverse with
    | nil => rfl
    | cons ch rest =>
      have hmem : ch ∈ s.data := by
        have : ch ∈ s.toList.reverse := by rw [hrev]; simp
        simpa using this
      have hne : (ch == '/') = false := by simpa using hs ch hmem
      simp [List.dropWhile, hne]
  have h2 : (s.toList.reverse).takeWhile (fun ch => ch != '/') = s.toList.reverse := by
    rw [List.takeWhile_eq_self_iff]
    intro ch hch
    have hmem : ch ∈ s.data := by simpa using hch
    simpa using hs ch hmem
  simp only [basename, h1, h2, List.reverse_reverse]
  rfl


theorem toStr_string (h : Host) (s : String) : toStr h (.string s) = .ok s := by
  simp [toStr]

theorem toStr_number (h : Host) (n : JSNumber) : toStr h (.number n) = .ok (numToStr h n) := by
  simp [toStr]

theorem toStr_undefined (h : Host) : toStr h .undefined = .ok "undefined" := by
  simp [toStr]

theorem toStr_symbol (h : Host) (d : String) : toStr h (.symbol d) = .error symbolError := by
  simp [toStr]

theorem toStr_unprintable (h : Host) : toStr h unprintable = .error objectError := by
  simp [unprintable, toStr, objectToPrimitive, tryMethod, List.lookup]

/-- A clock reading prints in decimal. -/
theorem numToStr_clock (h : Host) (t : Int) (hsmall : t.natAbs < 10 ^ 21) :
    numToStr h (.finite t 0) = decimalInt t := by
  show (if (0 : Int) = 0 ∧ t.natAbs < 10 ^ 21 then decimalInt t else h.numberToString t 0)
    = decimalInt t
  rw [if_pos ⟨rfl, hsmall⟩]

theorem typeOf_number_iff (v : JSVal) : typeOf v = "number" ↔ ∃ n, v = .number n := by
  cases v <;> simp [typeOf]

/-- A read of a property of a value that is neither `undefined` nor `null`
does not throw. -/
theorem getProp_total (v : JSVal) (key : String) (hu : v ≠ .undefined) (hn : v ≠ .null) :
    ∃ w, getProp v key = .ok w := by
  cases v <;> simp [getProp] at *
  split_ifs <;> simp

/-- A read of a property of a truthy value does not throw. -/
theorem getProp_of_truthy (v : JSVal) (key : String) (hv : truthy v = true) :
    ∃ w, getProp v key = .ok w := by
  apply getProp_total <;> rintro rfl <;> simp [truthy] at hv

theorem catchHandler_native (name message : String) :
    catchHandler (.error name message) = .error (nullishRead "undefined" "data") := by
  simp [catchHandler, getProp, bind, Except.bind]

theorem orDefault_of_ne (arg dflt : JSVal) (hne : arg ≠ .undefined) :
    orDefault arg dflt = arg := by
  cases arg <;> simp [orDefault] at *

theorem invalidValue_requests (h : Host) (shown : JSVal) (param : String) :
    (invalidValue h shown param).1 = [] := by
  unfold invalidValue
  split <;> rfl

theorem invalidValue_ok (h : Host) (shown : JSVal) (param text : String)
    (ht : toStr h shown = .ok text) :
    invalidValue h shown param =
      ([], .ok (mkError ("\"" ++ text ++ "\" is not a valid value for \"" ++ param ++ "\""))) := by
  simp [invalidValue, ht]

theorem invalidValue_error (h : Host) (shown : JSVal) (param : String) (e : JSVal)
    (ht : toStr h shown = .error e) :
    invalidValue h shown param = ([], .error e) := by
  simp [invalidValue, ht]

/-- A listing whose `amount` fails its check: the message is built from
`amount`, inside the `try`. -/
theorem getUploads_amount_rejected (h : Host) (c : Client) (amount page : JSVal)
    (ha : countAccepted amount = false) :
    getUploads h c amount page =
      tryCatch (match toStr h amount with
        | .error e => ([], .error e)
        | .ok shown => ([], .ok (mkError (shown ++ " is not a valid value for \"amount\".")))) := by
  have hcheck : (!truthy amount || typeOf amount != "number") = true := by
    cases ht : truthy amount <;> simp [countAccepted, ht] at ha ⊢
    exact ha
  unfold getUploads
  rw [if_pos hcheck]

/-- A listing whose `amount` passes and whose `page` fails its check. -/
theorem getUploads_page_rejected (h : Host) (c : Client) (amount page : JSVal)
    (ha : countAccepted amount = true) (hp : countAccepted page = false) :
    getUploads h c amount page =
      tryCatch (match toStr h page with
        | .error e => ([], .error e)
        | .ok shown => ([], .ok (mkError (shown ++ " is not a valid value for \"page\".")))) := by
  have hcheck1 : ¬ (!truthy amount || typeOf amount != "number") = true := by
    simp only [countAccepted, Bool.and_eq_true, beq_iff_eq] at ha
    simp [ha.1, ha.2]
  have hcheck2 : (!truthy page || typeOf page != "number") = true := by
    cases ht : truthy page <;> simp [countAccepted, ht] at hp ⊢
    exact hp
  unfold getUploads
  rw [if_neg hcheck1, if_pos hcheck2]

/-- A listing whose arguments pass the checks: both are numbers, and one
request is issued inside the `try`. -/
theorem getUploads_of_passes (h : Host) (c : Client) (amount page : JSVal)
    (hv : passesGetUploadsChecks amount page = true) :
    ∃ na np, amount = .number na ∧ page = .number np ∧
    getUploads h c amount page =
      tryCatch ([⟨.GET, "https://api.tixte.com/v1/user/uploads?page=" ++ numToStr h np
          ++ "&amount=" ++ numToStr h na, authHeaders c, none⟩], do
        let res ← h.transport ⟨.GET, "https://api.tixte.com/v1/user/uploads?page="
          ++ numToStr h np ++ "&amount=" ++ numToStr h na, authHeaders c, none⟩
        let data ← getProp res "data"
        getProp data "data") := by
  simp only [passesGetUploadsChecks, countAccepted, Bool.and_eq_true, beq_iff_eq] at hv
  obtain ⟨⟨h1, h2⟩, h3, h4⟩ := hv
  obtain ⟨na, rfl⟩ := (typeOf_number_iff amount).mp h2
  obtain ⟨np, rfl⟩ := (typeOf_number_iff page).mp h4
  refine ⟨na, np, rfl, rfl, ?_⟩
  simp [getUploads, h1, h3, typeOf, toStr_number]

/-- A deletion whose argument fails the check: the message is built from the
argument, outside the `try`. -/
theorem deleteImage_rejected (h : Host) (c : Client) (imageID : JSVal)
    (hv : passesDeleteCheck imageID = false) :
    deleteImage h c imageID = invalidValue h imageID "imageID" := by
  have hcheck : (!truthy imageID || typeOf imageID != "string") = true := by
    cases ht : truthy imageID <;> simp [passesDeleteCheck, ht] at hv ⊢
    exact hv
  unfold deleteImage
  rw [if_pos hcheck]

/-- A deletion of a non-empty string: one request inside the `try`. -/
theorem deleteImage_of_string (h : Host) (c : Client) (s : String) (hs : s ≠ "") :
    deleteImage h c (.string s) =
      tryCatch ([⟨.DELETE, "https://api.tixte.com/v1/user/uploads/" ++ s, authHeaders c, none⟩], do
        let res ← h.transport
          ⟨.DELETE, "https://api.tixte.com/v1/user/uploads/" ++ s, authHeaders c, none⟩
        getProp res "data") := by
  simp [deleteImage, truthy, typeOf, hs, toStr_string]

theorem passesDeleteCheck_iff (imageID : JSVal) :
    passesDeleteCheck imageID = true ↔ ∃ s, imageID = .string s ∧ s ≠ "" := by
  cases imageID <;> simp [passesDeleteCheck, truthy, typeOf]

/-- An upload whose source fails the check of line 118. -/
theorem uploadImage_source_rejected (h : Host) (c : Client) (now : Int)
    (imagePath domain options : JSVal) (hs : sourceAccepted imagePath = false) :
    uploadImage h c now imagePath domain options = invalidValue h imagePath "imagePath" := by
  have hcheck : (!truthy imagePath ||
      (typeOf imagePath != "string" && typeOf imagePath != "object")) = true := by
    cases ht : truthy imagePath <;> simp [sourceAccepted, ht] at hs ⊢
    exact hs
  unfold uploadImage
  simp only []
  rw [if_pos hcheck]

theorem sourceAccepted_check (imagePath : JSVal) (hs : sourceAccepted imagePath = true) :
    ¬ (!truthy imagePath ||
      (typeOf imagePath != "string" && typeOf imagePath != "object")) = true := by
  simp only [sourceAccepted, Bool.and_eq_true, Bool.or_eq_true, beq_iff_eq] at hs
  rcases hs with ⟨h1, h2 | h2⟩ <;> simp [h1, h2]

theorem domainAccepted_check (domain : JSVal) (hd : domainAccepted domain = true) :
    ¬ (!truthy domain || typeOf domain != "string") = true := by
  simp only [domainAccepted, Bool.and_eq_true, beq_iff_eq] at hd
  simp [hd.1, hd.2]

/-- An upload whose source passes and whose domain fails the check of line 119. -/
theorem uploadImage_domain_rejected (h : Host) (c : Client) (now : Int)
    (imagePath domain options : JSVal) (hs : sourceAccepted imagePath = true)
    (hd : domainAccepted domain = false) :
    uploadImage h c now imagePath domain options = invalidValue h domain "domain" := by
  have hcheck : (!truthy domain || typeOf domain != "string") = true := by
    cases ht : truthy domain <;> simp [domainAccepted, ht] at hd ⊢
    exact hd
  unfold uploadImage
  simp only []
  rw [if_neg (sourceAccepted_check imagePath hs), if_pos hcheck]

/-- An upload whose source and domain pass and whose options in effect fail the
check of line 120. -/
theorem uploadImage_options_rejected (h : Host) (c : Client) (now : Int)
    (imagePath domain options : JSVal) (hs : sourceAccepted imagePath = true)
    (hd : domainAccepted domain = true)
    (ho : optionsAccepted (orDefault options (defaultOptions h now)) = false) :
    uploadImage h c now imagePath domain options =
      ([], .ok (mkError "\"options is not a valid object or is missing keys\"")) := by
  unfold uploadImage
  simp only []
  rw [if_neg (sourceAccepted_check imagePath hs), if_neg (domainAccepted_check domain hd)]
  generalize orDefault options (defaultOptions h now) = o at ho ⊢
  split_ifs with h3
  · rfl
  · simp only [Bool.or_eq_true, Bool.not_eq_true', bne_iff_ne, not_or, not_not,
      Bool.not_eq_false] at h3
    obtain ⟨extension, hext⟩ := getProp_of_truthy o "extension" h3.1
    obtain ⟨fileName, hname⟩ := getProp_of_truthy o "fileName" h3.1
    rw [hext]
    simp only []
    split_ifs with h4
    · rfl
    · rw [hname]
      simp only []
      split_ifs with h5
      · rfl
      · exfalso
        simp only [Bool.not_eq_true', Bool.not_eq_false] at h4 h5
        simp [optionsAccepted, h3.1, h3.2, propTruthy, hext, hname, h4, h5] at ho

/-- An upload whose arguments pass the three checks runs the `try` block on the
options in effect. -/
theorem uploadImage_accepted (h : Host) (c : Client) (now : Int)
    (imagePath domain options : JSVal) (hs : sourceAccepted imagePath = true)
    (hd : domainAccepted domain = true)
    (ho : optionsAccepted (orDefault options (defaultOptions h now)) = true) :
    uploadImage h c now imagePath domain options =
      tryCatch (uploadBody h c imagePath domain (orDefault options (defaultOptions h now))) := by
  unfold uploadImage
  simp only []
  rw [if_neg (sourceAccepted_check imagePath hs), if_neg (domainAccepted_check domain hd)]
  generalize orDefault options (defaultOptions h now) = o at ho ⊢
  simp only [optionsAccepted, Bool.and_eq_true, beq_iff_eq] at ho
  obtain ⟨⟨⟨h1, h2⟩, h3⟩, h4⟩ := ho
  cases hext : getProp o "extension" with
  | error e => simp [propTruthy, hext] at h3
  | ok extension =>
    cases hname : getProp o "fileName" with
    | error e => simp [propTruthy, hname] at h4
    | ok fileName =>
      simp only [propTruthy, hext, hname] at h3 h4
      simp [h1, h2, h3, h4]

/-- The `try` block of an upload whose source can be turned into the content of
a part and whose file name and extension can be printed: one request, with one
part. -/
theorem uploadBody_ok (h : Host) (c : Client) (imagePath domain o file fileName extension : JSVal)
    (nameText extText : String)
    (hf : fileOf h imagePath = .ok file)
    (hname : getProp o "fileName" = .ok fileName) (hnameText : toStr h fileName = .ok nameText)
    (hext : getProp o "extension" = .ok extension) (hextText : toStr h extension = .ok extText) :
    uploadBody h c imagePath domain o =
      ([uploadRequest h c domain file (basename (nameText ++ "." ++ extText))], do
        let res ← h.transport
          (uploadRequest h c domain file (basename (nameText ++ "." ++ extText)))
        getProp res "data") := by
  simp [uploadBody, hf, hname, hnameText, hext, hextText, FormData.append, uploadRequest]

/-- The `try` block of an upload hands the transport at most the one request of
`uploadBody_ok`: when a step before the request throws, nothing is sent. -/
theorem uploadBody_thrown (h : Host) (c : Client) (imagePath domain o : JSVal) :
    (∀ e, fileOf h imagePath = .error e → uploadBody h c imagePath domain o = ([], .error e)) ∧
    (∀ file fileName e, fileOf h imagePath = .ok file → getProp o "fileName" = .ok fileName →
      toStr h fileName = .error e → uploadBody h c imagePath domain o = ([], .error e)) ∧
    (∀ file fileName nameText extension e, fileOf h imagePath = .ok file →
      getProp o "fileName" = .ok fileName → toStr h fileName = .ok nameText →
      getProp o "extension" = .ok extension → toStr h extension = .error e →
      uploadBody h c imagePath domain o = ([], .error e)) := by
  refine ⟨?_, ?_, ?_⟩
  · intro e hf
    simp [uploadBody, hf]
  · intro file fileName e hf hname hnameText
    simp [uploadBody, hf, hname, hnameText]
  · intro file fileName nameText extension e hf hname hnameText hext hextText
    simp [uploadBody, hf, hname, hnameText, hext, hextText]

/-- C5. Construction throws, without any request, when the configuration is
missing or its `api_key` is absent or the empty string; with a non-empty string
`api_key` it succeeds, without any request, and the client stores that string. -/
theorem constructor_requires_api_key (config : JSVal) :
    ((config = .undefined ∨ config = .null) →
        ∃ e, Client.constructor config = ([], .error e)) ∧
    (∀ key, getProp config "api_key" = .ok key → (key = .undefined ∨ key = .string "") →
        Client.constructor config = ([], .error (mkError "\"api_key\" cannot be undefined"))) ∧
    (∀ s, getProp config "api_key" = .ok (.string s) → s ≠ "" →
        Client.constructor config = ([], .ok ⟨.string s⟩)) := by
  refine ⟨?_, ?_, ?_⟩
  · rintro (rfl | rfl) <;> exact ⟨_, rfl⟩
  · rintro key hkey (rfl | rfl) <;> simp [Client.constructor, hkey, truthy]
  · intro s hkey hs
    simp [Client.constructor, hkey, truthy, hs]

theorem constructor_requires_api_key_witness :
    (∃ e, Client.constructor .undefined = ([], .error e)) ∧
    Client.constructor (.object []) =
      ([], .error (mkError "\"api_key\" cannot be undefined")) ∧
    Client.constructor (.object [("api_key", .string "")]) =
      ([], .error (mkError "\"api_key\" cannot be undefined")) ∧
    Client.constructor (.object [("api_key", .string "token")]) = ([], .ok ⟨.string "token"⟩) :=
  ⟨(constructor_requires_api_key .undefined).1 (Or.inl rfl),
   (constructor_requires_api_key (.object [])).2.1 .undefined (by simp [getProp]) (Or.inl rfl),
   (constructor_requires_api_key (.object [("api_key", .string "")])).2.1 (.string "")
      (by simp [getProp, List.lookup]) (Or.inr rfl),
   (constructor_requires_api_key (.object [("api_key", .string "token")])).2.2 "token"
      (by simp [getProp, List.lookup]) (by decide)⟩

theorem uploadBody_header (h : Host) (c : Client) (imagePath domain options : JSVal) :
    ∀ req ∈ (uploadBody h c imagePath domain options).1,
      header req "Authorization" = some c.api_key := by
  intro req hreq
  unfold uploadBody at hreq
  split at hreq
  · simp at hreq
  · split at hreq
    · simp at hreq
    · split at hreq
      · simp at hreq
      · split at hreq
        · simp at hreq
        · split at hreq
          · simp at hreq
          · simp only [List.mem_singleton] at hreq
            subst hreq
            simp [header, spread, FormData.getHeaders, setField, List.lookup, FormData.append]

theorem uploadImage_header (h : Host) (c : Client) (now : Int)
    (imagePath domain options : JSVal) :
    ∀ req ∈ (uploadImage h c now imagePath domain options).1,
      header req "Authorization" = some c.api_key := by
  intro req hreq
  cases hs : sourceAccepted imagePath with
  | false =>
    rw [uploadImage_source_rejected h c now imagePath domain options hs,
      invalidValue_requests] at hreq
    simp at hreq
  | true =>
    cases hd : domainAccepted domain with
    | false =>
      rw [uploadImage_domain_rejected h c now imagePath domain options hs hd,
        invalidValue_requests] at hreq
      simp at hreq
    | true =>
      cases ho : optionsAccepted (orDefault options (defaultOptions h now)) with
      | false =>
        rw [uploadImage_options_rejected h c now imagePath domain options hs hd ho] at hreq
        simp at hreq
      | true =>
        rw [uploadImage_accepted h c now imagePath domain options hs hd ho] at hreq
        exact uploadBody_header h c imagePath domain _ req (by simpa [tryCatch] using hreq)

/-- C4. A client built from a configuration whose `api_key` is `k` stores `k`,
and every request any of the seven operations hands to the transport has the
header `Authorization` with the value `k`; for the upload this is the header
object after the encoder's headers were spread into it. -/
theorem requests_carry_token (h : Host) (config k : JSVal) (c : Client)
    (hk : getProp config "api_key" = .ok k)
    (hc : (Client.constructor config).2 = .ok c) :
    c.api_key = k ∧
    (∀ req ∈ (getSize h c).1, header req "Authorization" = some k) ∧
    (∀ amount page, ∀ req ∈ (getUploads h c amount page).1,
      header req "Authorization" = some k) ∧
    (∀ req ∈ (getUserInfo h c).1, header req "Authorization" = some k) ∧
    (∀ user, ∀ req ∈ (getUserInfoByName h c user).1, header req "Authorization" = some k) ∧
    (∀ req ∈ (getUserDomains h c).1, header req "Authorization" = some k) ∧
    (∀ now imagePath domain options, ∀ req ∈ (uploadImage h c now imagePath domain options).1,
      header req "Authorization" = some k) ∧
    (∀ imageID, ∀ req ∈ (deleteImage h c imageID).1, header req "Authorization" = some k) := by
  have hkey : c.api_key = k := by
    unfold Client.constructor at hc
    rw [hk] at hc
    simp only [] at hc
    split_ifs at hc
    cases hc
    rfl
  subst hkey
  refine ⟨rfl, ?_, ?_, ?_, ?_, ?_, ?_, ?_⟩
  · intro req hreq
    simp only [getSize, tryCatch, List.mem_singleton] at hreq
    subst hreq
    simp [header, authHeaders, List.lookup]
  · intro amount page req hreq
    unfold getUploads at hreq
    simp only [tryCatch] at hreq
    split_ifs at hreq
    · split at hreq <;> simp at hreq
    · split at hreq <;> simp at hreq
    · split at hreq
      · simp at hreq
      · split at hreq
        · simp at hreq
        · simp only [List.mem_singleton] at hreq
          subst hreq
          simp [header, authHeaders, List.lookup]
  · intro req hreq
    simp only [getUserInfo, tryCatch, List.mem_singleton] at hreq
    subst hreq
    simp [header, authHeaders, List.lookup]
  · intro user req hreq
    unfold getUserInfoByName at hreq
    simp only [tryCatch] at hreq
    split at hreq
    · simp at hreq
    · simp only [List.mem_singleton] at hreq
      subst hreq
      simp [header, authHeaders, List.lookup]
  · intro req hreq
    simp only [getUserDomains, tryCatch, List.mem_singleton] at hreq
    subst hreq
    simp [header, authHeaders, List.lookup]
  · intro now imagePath domain options
    exact uploadImage_header h c now imagePath domain options
  · intro imageID req hreq
    cases hv : passesDeleteCheck imageID with
    | false =>
      rw [deleteImage_rejected h c imageID hv, invalidValue_requests] at hreq
      simp at hreq
    | true =>
      obtain ⟨s, rfl, hs⟩ := (passesDeleteCheck_iff imageID).mp hv
      rw [deleteImage_of_string h c s hs] at hreq
      simp only [tryCatch, List.mem_singleton] at hreq
      subst hreq
      simp [header, authHeaders, List.lookup]

theorem passes_example_uploads : passesGetUploadsChecks ten ten = true := by
  simp [passesGetUploadsChecks, countAccepted, ten, truthy, typeOf]

theorem source_example : sourceAccepted (.string "a.png") = true := by
  simp [sourceAccepted, truthy, typeOf]

theorem domain_example : domainAccepted (.string "d.com") = true := by
  simp [domainAccepted, truthy, typeOf]

theorem options_example (h : Host) (now : Int) :
    optionsAccepted (orDefault jpgOptions (defaultOptions h now)) = true := by
  simp [optionsAccepted, jpgOptions, orDefault, truthy, typeOf, propTruthy, getProp, List.lookup]

theorem fileOf_example (h : Host) : fileOf h (.string "a.png") = .ok (.stream "a.png") := by
  simp [fileOf, createReadStream]

/-- The example upload of `cat.jpg`, spelled out. -/
theorem upload_example (h : Host) (c : Client) (now : Int) :
    uploadImage h c now (.string "a.png") (.string "d.com") jpgOptions =
      tryCatch ([uploadRequest h c (.string "d.com") (.stream "a.png") "cat.jpg"], do
        let res ← h.transport (uploadRequest h c (.string "d.com") (.stream "a.png") "cat.jpg")
        getProp res "data") := by
  rw [uploadImage_accepted h c now _ _ _ source_example domain_example (options_example h now),
    uploadBody_ok h c _ _ _ (.stream "a.png") (.string "cat") (.string "jpg") "cat" "jpg"
      (fileOf_example h) (by simp [jpgOptions, orDefault, getProp, List.lookup])
      (toStr_string h _) (by simp [jpgOptions, orDefault, getProp, List.lookup])
      (toStr_string h _)]
  rfl

theorem requests_carry_token_witness :
    exampleClient.api_key = .string "token" ∧
    header ⟨.GET, "https://api.tixte.com/v1/user/uploads/size", authHeaders exampleClient, none⟩
      "Authorization" = some (.string "token") ∧
    header ⟨.GET, "https://api.tixte.com/v1/user/uploads?page="
        ++ numToStr (exampleHost (.ok userResponse)) (.finite 10 0) ++ "&amount="
        ++ numToStr (exampleHost (.ok userResponse)) (.finite 10 0),
        authHeaders exampleClient, none⟩
      "Authorization" = some (.string "token") ∧
    header ⟨.GET, "https://api.tixte.com/v1/users/@me", authHeaders exampleClient, none⟩
      "Authorization" = some (.string "token") ∧
    header ⟨.GET, "https://api.tixte.com/v1/users/bob", authHeaders exampleClient, none⟩
      "Authorization" = some (.string "token") ∧
    header ⟨.GET, "https://api.tixte.com/v1/user/domains", authHeaders exampleClient, none⟩
      "Authorization" = some (.string "token") ∧
    header (uploadRequest (exampleHost (.ok userResponse)) exampleClient (.string "d.com")
      (.stream "a.png") "cat.jpg") "Authorization" = some (.string "token") ∧
    header ⟨.DELETE, "https://api.tixte.com/v1/user/uploads/abc", authHeaders exampleClient, none⟩
      "Authorization" = some (.string "token") := by
  have w := requests_carry_token (exampleHost (.ok userResponse))
    (.object [("api_key", .string "token")]) (.string "token") exampleClient
    (by simp [getProp, List.lookup])
    (by simp [Client.constructor, getProp, List.lookup, truthy, exampleClient])
  refine ⟨w.1, w.2.1 _ ?_, w.2.2.1 ten ten _ ?_, w.2.2.2.1 _ ?_,
    w.2.2.2.2.1 (.string "bob") _ ?_, w.2.2.2.2.2.1 _ ?_,
    w.2.2.2.2.2.2.1 1000 (.string "a.png") (.string "d.com") jpgOptions _ ?_,
    w.2.2.2.2.2.2.2 (.string "abc") _ ?_⟩
  · simp [getSize, tryCatch]
  · obtain ⟨na, np, ha, hp, hrun⟩ :=
      getUploads_of_passes (exampleHost (.ok userResponse)) exampleClient ten ten
        passes_example_uploads
    simp only [ten, JSVal.number.injEq] at ha hp
    subst ha hp
    simp [hrun, tryCatch]
  · simp [getUserInfo, tryCatch]
  · simp [getUserInfoByName, tryCatch, toStr_string]
  · simp [getUserDomains, tryCatch]
  · simp [upload_example, tryCatch]
  · simp [deleteImage_of_string _ _ "abc" (by decide), tryCatch]

/-- C6, as stated, fails: with a Symbol, or an object whose `toString` is not
callable, in place of a count, the template literal of the message throws
inside the `try`, the handler throws on the missing `response`, and the call
rejects (without a request). -/
theorem getUploads_can_reject_non_number :
    getUploads (exampleHost (.ok userResponse)) exampleClient (.symbol "amount") ten
      = ([], .error (nullishRead "undefined" "data")) ∧
    getUploads (exampleHost (.ok userResponse)) exampleClient unprintable ten
      = ([], .error (nullishRead "undefined" "data")) ∧
    getUploads (exampleHost (.ok userResponse)) exampleClient ten unprintable
      = ([], .error (nullishRead "undefined" "data")) := by
  refine ⟨?_, ?_, ?_⟩
  · rw [getUploads_amount_rejected _ _ _ _ (by simp [countAccepted, typeOf, truthy]),
      toStr_symbol]
    simp [tryCatch, symbolError, catchHandler_native]
  · rw [getUploads_amount_rejected _ _ _ _ (by simp [countAccepted, unprintable, typeOf, truthy]),
      toStr_unprintable]
    simp [tryCatch, objectError, catchHandler_native]
  · rw [getUploads_page_rejected _ _ _ _ (by simp [countAccepted, ten, typeOf, truthy])
      (by simp [countAccepted, unprintable, typeOf, truthy]), toStr_unprintable]
    simp [tryCatch, objectError, catchHandler_native]

/-- C6, amended. When `amount` or `page` is not a number, `getUploads` hands
nothing to the transport.  The message names `amount` when `amount` fails its
check and `page` otherwise; when that argument prints as `s` the call resolves
to the error `s is not a valid value for ...`, and when printing it throws `e`
the call settles as the handler does on `e`.  An omitted argument prints as
`undefined`. -/
theorem getUploads_rejects_non_numbers (h : Host) (c : Client) (amount page : JSVal)
    (hbad : typeOf amount ≠ "number" ∨ typeOf page ≠ "number") :
    (getUploads h c amount page).1 = [] ∧
    (countAccepted amount = false →
      (∀ s, toStr h amount = .ok s →
        (getUploads h c amount page).2
          = .ok (mkError (s ++ " is not a valid value for \"amount\"."))) ∧
      (∀ e, toStr h amount = .error e → (getUploads h c amount page).2 = catchHandler e)) ∧
    (countAccepted amount = true →
      (∀ s, toStr h page = .ok s →
        (getUploads h c amount page).2
          = .ok (mkError (s ++ " is not a valid value for \"page\"."))) ∧
      (∀ e, toStr h page = .error e → (getUploads h c amount page).2 = catchHandler e)) ∧
    (amount = .undefined →
      (getUploads h c amount page).2
        = .ok (mkError "undefined is not a valid value for \"amount\".")) ∧
    (countAccepted amount = true → page = .undefined →
      (getUploads h c amount page).2
        = .ok (mkError "undefined is not a valid value for \"page\".")) := by
  have hpage : countAccepted amount = true → countAccepted page = false := by
    intro ha
    have hnum : typeOf amount = "number" := by
      simp only [countAccepted, Bool.and_eq_true, beq_iff_eq] at ha
      exact ha.2
    rcases hbad with hb | hb
    · exact absurd hnum hb
    · simp [countAccepted, hb]
  have hA : countAccepted amount = false →
      (getUploads h c amount page).1 = [] ∧
      (∀ s, toStr h amount = .ok s →
        (getUploads h c amount page).2
          = .ok (mkError (s ++ " is not a valid value for \"amount\"."))) ∧
      (∀ e, toStr h amount = .error e → (getUploads h c amount page).2 = catchHandler e) := by
    intro ha
    rw [getUploads_amount_rejected h c amount page ha]
    refine ⟨?_, ?_, ?_⟩
    · cases toStr h amount <;> rfl
    · intro s hs
      simp [hs, tryCatch]
    · intro e he
      simp [he, tryCatch]
  have hP : countAccepted amount = true →
      (getUploads h c amount page).1 = [] ∧
      (∀ s, toStr h page = .ok s →
        (getUploads h c amount page).2
          = .ok (mkError (s ++ " is not a valid value for \"page\"."))) ∧
      (∀ e, toStr h page = .error e → (getUploads h c amount page).2 = catchHandler e) := by
    intro ha
    rw [getUploads_page_rejected h c amount page ha (hpage ha)]
    refine ⟨?_, ?_, ?_⟩
    · cases toStr h page <;> rfl
    · intro s hs
      simp [hs, tryCatch]
    · intro e he
      simp [he, tryCatch]
  refine ⟨?_, fun ha => (hA ha).2, fun ha => (hP ha).2, ?_, ?_⟩
  · cases ha : countAccepted amount with
    | false => exact (hA ha).1
    | true => exact (hP ha).1
  · rintro rfl
    exact (hA (by simp [countAccepted, truthy])).2.1 "undefined" (toStr_undefined h)
  · rintro ha rfl
    exact (hP ha).2.1 "undefined" (toStr_undefined h)

theorem getUploads_rejects_non_numbers_witness :
    (getUploads (exampleHost (.ok userResponse)) exampleClient (.string "ten") .undefined).1 = [] ∧
    (getUploads (exampleHost (.ok userResponse)) exampleClient (.string "ten") .undefined).2
      = .ok (mkError ("ten" ++ " is not a valid value for \"amount\".")) ∧
    (getUploads (exampleHost (.ok userResponse)) exampleClient (.symbol "x") .undefined).2
      = catchHandler symbolError ∧
    (getUploads (exampleHost (.ok userResponse)) exampleClient ten (.bool true)).2
      = .ok (mkError ("true" ++ " is not a valid value for \"page\".")) ∧
    (getUploads (exampleHost (.ok userResponse)) exampleClient ten unprintable).2
      = catchHandler objectError ∧
    (getUploads (exampleHost (.ok userResponse)) exampleClient .undefined ten).2
      = .ok (mkError "undefined is not a valid value for \"amount\".") ∧
    (getUploads (exampleHost (.ok userResponse)) exampleClient ten .undefined).2
      = .ok (mkError "undefined is not a valid value for \"page\".") :=
  have hten : countAccepted ten = true := by simp [countAccepted, ten, truthy, typeOf]
  have w1 := getUploads_rejects_non_numbers (exampleHost (.ok userResponse)) exampleClient
    (.string "ten") .undefined (Or.inl (by decide))
  have w2 := getUploads_rejects_non_numbers (exampleHost (.ok userResponse)) exampleClient
    (.symbol "x") .undefined (Or.inl (by decide))
  have w3 := getUploads_rejects_non_numbers (exampleHost (.ok userResponse)) exampleClient
    ten (.bool true) (Or.inr (by decide))
  have w4 := getUploads_rejects_non_numbers (exampleHost (.ok userResponse)) exampleClient
    ten unprintable (Or.inr (by decide))
  have w5 := getUploads_rejects_non_numbers (exampleHost (.ok userResponse)) exampleClient
    .undefined ten (Or.inl (by decide))
  have w6 := getUploads_rejects_non_numbers (exampleHost (.ok userResponse)) exampleClient
    ten .undefined (Or.inr (by decide))
  ⟨w1.1,
   (w1.2.1 (by simp [countAccepted, truthy, typeOf])).1 "ten" (toStr_string _ _),
   (w2.2.1 (by simp [countAccepted, truthy, typeOf])).2 symbolError (toStr_symbol _ _),
   (w3.2.2.1 hten).1 "true" (by simp [toStr]),
   (w4.2.2.1 hten).2 objectError (toStr_unprintable _),
   w5.2.2.2.1 rfl,
   w6.2.2.2.2 hten rfl⟩

/-- C8, as stated, fails: with a Symbol, or an object whose `toString` is not
callable, as `imageID`, the template literal of the message throws outside the
`try` and the call rejects (without a request). -/
theorem deleteImage_can_reject_non_string :
    deleteImage (exampleHost (.ok userResponse)) exampleClient (.symbol "id")
      = ([], .error symbolError) ∧
    deleteImage (exampleHost (.ok userResponse)) exampleClient unprintable
      = ([], .error objectError) := by
  constructor
  · rw [deleteImage_rejected _ _ _ (by simp [passesDeleteCheck, typeOf, truthy]),
      invalidValue_error _ _ _ _ (toStr_symbol _ _)]
  · rw [deleteImage_rejected _ _ _ (by simp [passesDeleteCheck, unprintable, typeOf, truthy]),
      invalidValue_error _ _ _ _ (toStr_unprintable _)]

/-- C8, amended. `deleteImage` with an argument that is not a string, or is the
empty string, hands nothing to the transport; when the argument prints as `s`
the call resolves to the error `"s" is not a valid value for "imageID"` (an
omitted argument prints as `undefined`), and when printing it throws `e` the
call rejects with `e`.  With a non-empty string it hands the transport exactly
one request, a DELETE of `uploads/<imageID>`. -/
theorem deleteImage_validates_id (h : Host) (c : Client) :
    (∀ imageID, (typeOf imageID ≠ "string" ∨ imageID = .string "") →
      (deleteImage h c imageID).1 = [] ∧
      (∀ s, toStr h imageID = .ok s →
        (deleteImage h c imageID).2
          = .ok (mkError ("\"" ++ s ++ "\" is not a valid value for \"" ++ "imageID" ++ "\""))) ∧
      (∀ e, toStr h imageID = .error e → (deleteImage h c imageID).2 = .error e)) ∧
    deleteImage h c .undefined
      = ([], .ok (mkError ("\"" ++ "undefined" ++ "\" is not a valid value for \""
          ++ "imageID" ++ "\""))) ∧
    (∀ s, s ≠ "" →
      (deleteImage h c (.string s)).1 =
        [⟨.DELETE, "https://api.tixte.com/v1/user/uploads/" ++ s,
          [("Authorization", c.api_key)], none⟩]) := by
  have hrej : ∀ imageID, (typeOf imageID ≠ "string" ∨ imageID = .string "") →
      deleteImage h c imageID = invalidValue h imageID "imageID" := by
    intro imageID hbad
    apply deleteImage_rejected
    rcases hbad with hb | rfl
    · simp [passesDeleteCheck, hb]
    · simp [passesDeleteCheck, truthy]
  refine ⟨?_, ?_, ?_⟩
  · intro imageID hbad
    rw [hrej imageID hbad]
    refine ⟨invalidValue_requests _ _ _, ?_, ?_⟩
    · intro s hs
      rw [invalidValue_ok h imageID "imageID" s hs]
    · intro e he
      rw [invalidValue_error h imageID "imageID" e he]
  · rw [hrej .undefined (Or.inl (by decide)),
      invalidValue_ok h .undefined "imageID" "undefined" (toStr_undefined h)]
  · intro s hs
    rw [deleteImage_of_string h c s hs]
    rfl

theorem deleteImage_validates_id_witness :
    ((deleteImage (exampleHost (.ok userResponse)) exampleClient (.number (.finite 7 0))).1 = [] ∧
      (deleteImage (exampleHost (.ok userResponse)) exampleClient (.string "")).2
        = .ok (mkError ("\"" ++ "" ++ "\" is not a valid value for \"" ++ "imageID" ++ "\"")) ∧
      (deleteImage (exampleHost (.ok userResponse)) exampleClient (.symbol "id")).2
        = .error symbolError) ∧
    (deleteImage (exampleHost (.ok userResponse)) exampleClient (.string "abc")).1 =
      [⟨.DELETE, "https://api.tixte.com/v1/user/uploads/" ++ "abc",
        [("Authorization", exampleClient.api_key)], none⟩] :=
  have w := deleteImage_validates_id (exampleHost (.ok userResponse)) exampleClient
  ⟨⟨(w.1 (.number (.finite 7 0)) (Or.inl (by decide))).1,
    (w.1 (.string "") (Or.inr rfl)).2.1 "" (toStr_string _ _),
    (w.1 (.symbol "id") (Or.inl (by decide))).2.2 symbolError (toStr_symbol _ _)⟩,
   w.2.2 "abc" (by decide)⟩

theorem optionsAccepted_of_missing (options : JSVal)
    (hmiss : propTruthy options "extension" = false ∨ propTruthy options "fileName" = false) :
    optionsAccepted options = false := by
  rcases hmiss with hm | hm <;> simp [optionsAccepted, hm]

/-- C7, as stated, fails: with options lacking both keys, a domain whose
`toString` is not callable, or a Symbol source, makes the template literal of
the message throw outside the `try`, and the call rejects (without a request). -/
theorem uploadImage_can_reject_incomplete_options :
    uploadImage (exampleHost (.ok userResponse)) exampleClient 1000 (.string "a.png")
      unprintable (.object []) = ([], .error objectError) ∧
    uploadImage (exampleHost (.ok userResponse)) exampleClient 1000 (.symbol "source")
      (.string "d.com") (.object []) = ([], .error symbolError) := by
  constructor
  · rw [uploadImage_domain_rejected _ _ _ _ _ _ source_example
        (by simp [domainAccepted, unprintable, typeOf, truthy]),
      invalidValue_error _ _ _ _ (toStr_unprintable _)]
  · rw [uploadImage_source_rejected _ _ _ _ _ _ (by simp [sourceAccepted, typeOf, truthy]),
      invalidValue_error _ _ _ _ (toStr_symbol _ _)]

/-- C7, amended. When `options` is supplied as an object in which `extension`
or `fileName` is missing or empty, `uploadImage` hands nothing to the transport,
for every source and domain.  A source that fails its check is named in the
message, then a domain that fails its check: when the named argument prints as
`s` the call resolves to the error `"s" is not a valid value for ...`, and when
printing it throws `e` the call rejects with `e`.  When source and domain pass,
the call resolves to the error about the options. -/
theorem uploadImage_rejects_incomplete_options (h : Host) (c : Client) (now : Int)
    (imagePath domain options : JSVal) (hobj : typeOf options = "object")
    (hmiss : propTruthy options "extension" = false ∨ propTruthy options "fileName" = false) :
    (uploadImage h c now imagePath domain options).1 = [] ∧
    (sourceAccepted imagePath = false →
      (∀ s, toStr h imagePath = .ok s →
        (uploadImage h c now imagePath domain options).2
          = .ok (mkError ("\"" ++ s ++ "\" is not a valid value for \"" ++ "imagePath" ++ "\""))) ∧
      (∀ e, toStr h imagePath = .error e →
        (uploadImage h c now imagePath domain options).2 = .error e)) ∧
    (sourceAccepted imagePath = true → domainAccepted domain = false →
      (∀ s, toStr h domain = .ok s →
        (uploadImage h c now imagePath domain options).2
          = .ok (mkError ("\"" ++ s ++ "\" is not a valid value for \"" ++ "domain" ++ "\""))) ∧
      (∀ e, toStr h domain = .error e →
        (uploadImage h c now imagePath domain options).2 = .error e)) ∧
    (sourceAccepted imagePath = true → domainAccepted domain = true →
      (uploadImage h c now imagePath domain options).2
        = .ok (mkError "\"options is not a valid object or is missing keys\"")) := by
  have hne : options ≠ .undefined := by
    rintro rfl
    simp [typeOf] at hobj
  have hopt : optionsAccepted (orDefault options (defaultOptions h now)) = false := by
    rw [orDefault_of_ne options _ hne]
    exact optionsAccepted_of_missing options hmiss
  refine ⟨?_, ?_, ?_, ?_⟩
  · cases hs : sourceAccepted imagePath with
    | false =>
      rw [uploadImage_source_rejected h c now imagePath domain options hs]
      exact invalidValue_requests _ _ _
    | true =>
      cases hd : domainAccepted domain with
      | false =>
        rw [uploadImage_domain_rejected h c now imagePath domain options hs hd]
        exact invalidValue_requests _ _ _
      | true =>
        rw [uploadImage_options_rejected h c now imagePath domain options hs hd hopt]
  · intro hs
    rw [uploadImage_source_rejected h c now imagePath domain options hs]
    constructor
    · intro s hstr
      rw [invalidValue_ok h imagePath "imagePath" s hstr]
    · intro e he
      rw [invalidValue_error h imagePath "imagePath" e he]
  · intro hs hd
    rw [uploadImage_domain_rejected h c now imagePath domain options hs hd]
    constructor
    · intro s hstr
      rw [invalidValue_ok h domain "domain" s hstr]
    · intro e he
      rw [invalidValue_error h domain "domain" e he]
  · intro hs hd
    rw [uploadImage_options_rejected h c now imagePath domain options hs hd hopt]

theorem uploadImage_rejects_incomplete_options_witness :
    (uploadImage (exampleHost (.ok userResponse)) exampleClient 1000 (.string "a.png")
      (.string "d.com") (.object [("extension", .string "png")])).1 = [] ∧
    (uploadImage (exampleHost (.ok userResponse)) exampleClient 1000 (.string "a.png")
      (.string "d.com") (.object [("extension", .string "png")])).2
      = .ok (mkError "\"options is not a valid object or is missing keys\"") ∧
    (uploadImage (exampleHost (.ok userResponse)) exampleClient 1000 .undefined
      (.string "d.com") (.object [("extension", .string "png")])).2
      = .ok (mkError ("\"" ++ "undefined" ++ "\" is not a valid value for \""
          ++ "imagePath" ++ "\"")) ∧
    (uploadImage (exampleHost (.ok userResponse)) exampleClient 1000 (.string "a.png")
      unprintable (.object [("extension", .string "png")])).2 = .error objectError :=
  have hmiss : propTruthy (.object [("extension", .string "png")]) "extension" = false ∨
      propTruthy (.object [("extension", .string "png")]) "fileName" = false :=
    Or.inr (by simp [propTruthy, getProp, List.lookup, truthy])
  have w1 := uploadImage_rejects_incomplete_options (exampleHost (.ok userResponse))
    exampleClient 1000 (.string "a.png") (.string "d.com")
    (.object [("extension", .string "png")]) (by decide) hmiss
  have w2 := uploadImage_rejects_incomplete_options (exampleHost (.ok userResponse))
    exampleClient 1000 .undefined (.string "d.com")
    (.object [("extension", .string "png")]) (by decide) hmiss
  have w3 := uploadImage_rejects_incomplete_options (exampleHost (.ok userResponse))
    exampleClient 1000 (.string "a.png") unprintable
    (.object [("extension", .string "png")]) (by decide) hmiss
  ⟨w1.1, w1.2.2.2 source_example domain_example,
   (w2.2.1 (by simp [sourceAccepted, truthy])).1 "undefined" (toStr_undefined _),
   (w3.2.2.1 source_example (by simp [domainAccepted, unprintable, typeOf, truthy])).2
     objectError (toStr_unprintable _)⟩

theorem passesUploadChecks_iff (h : Host) (now : Int) (imagePath domain options : JSVal) :
    passesUploadChecks h now imagePath domain options = true ↔
      sourceAccepted imagePath = true ∧ domainAccepted domain = true ∧
      optionsAccepted (orDefault options (defaultOptions h now)) = true := by
  simp [passesUploadChecks, and_assoc]

theorem optionsAccepted_reads (o : JSVal) (ho : optionsAccepted o = true) :
    ∃ fileName extension, getProp o "fileName" = .ok fileName ∧
      getProp o "extension" = .ok extension ∧ truthy fileName = true ∧
      truthy extension = true := by
  simp only [optionsAccepted, Bool.and_eq_true, beq_iff_eq] at ho
  obtain ⟨⟨⟨h1, -⟩, h3⟩, h4⟩ := ho
  obtain ⟨extension, hext⟩ := getProp_of_truthy o "extension" h1
  obtain ⟨fileName, hname⟩ := getProp_of_truthy o "fileName" h1
  simp only [propTruthy, hext, hname] at h3 h4
  exact ⟨fileName, extension, hname, hext, h4, h3⟩

theorem nulPath_accepted : sourceAccepted (.string nulPath) = true := by
  simp [sourceAccepted, truthy, typeOf, nulPath]

theorem fileOf_nulPath (h : Host) : fileOf h (.string nulPath) = .error invalidPathError := by
  simp [fileOf, createReadStream, nulPath]

/-- The example upload from a path with a NUL character: nothing is sent and the
handler throws on the missing `response`. -/
theorem upload_nulPath (h : Host) (c : Client) (now : Int) :
    uploadImage h c now (.string nulPath) (.string "d.com") jpgOptions
      = ([], .error (nullishRead "undefined" "data")) := by
  rw [uploadImage_accepted h c now _ _ _ nulPath_accepted domain_example (options_example h now),
    (uploadBody_thrown h c _ _ _).1 _ (fileOf_nulPath h)]
  simp [tryCatch, invalidPathError, catchHandler_native]

/-- C1, as stated, fails: with a transport that rejects every call with the
body `unauthorizedBody`, `getUserInfoByName` on a Symbol or on an object whose
`toString` is not callable, and `uploadImage` on a path with a NUL character,
hand nothing to the transport and reject. -/
theorem error_body_not_always_returned :
    getUserInfoByName (exampleHost (.error unauthorizedError)) exampleClient (.symbol "user")
      = ([], .error (nullishRead "undefined" "data")) ∧
    getUserInfoByName (exampleHost (.error unauthorizedError)) exampleClient unprintable
      = ([], .error (nullishRead "undefined" "data")) ∧
    uploadImage (exampleHost (.error unauthorizedError)) exampleClient 1000 (.string nulPath)
      (.string "d.com") jpgOptions = ([], .error (nullishRead "undefined" "data")) := by
  refine ⟨?_, ?_, upload_nulPath _ _ _⟩
  · simp [getUserInfoByName, toStr_symbol, tryCatch, symbolError, catchHandler_native]
  · simp [getUserInfoByName, toStr_unprintable, tryCatch, objectError, catchHandler_native]

/-- C1, amended. When the transport rejects every call with an error whose
`response.data` is `b`: `getSize`, `getUserInfo` and `getUserDomains` resolve to
`b`; so do `getUploads` and `deleteImage` on arguments that pass their checks,
`getUserInfoByName` on a `user` that can be printed, and `uploadImage` on
arguments that pass its checks when the source can be turned into the content
of a part and the file name and extension can be printed.  In the remaining
cases `getUserInfoByName` and `uploadImage` hand nothing to the transport. -/
theorem operations_return_error_body (h : Host) (c : Client) (err response b : JSVal)
    (hfail : ∀ req, h.transport req = .error err)
    (hresponse : getProp err "response" = .ok response)
    (hbody : getProp response "data" = .ok b) :
    (getSize h c).2 = .ok b ∧
    (∀ amount page, passesGetUploadsChecks amount page = true →
      (getUploads h c amount page).2 = .ok b) ∧
    (getUserInfo h c).2 = .ok b ∧
    (∀ user text, toStr h user = .ok text → (getUserInfoByName h c user).2 = .ok b) ∧
    (∀ user e, toStr h user = .error e → getUserInfoByName h c user = ([], catchHandler e)) ∧
    (getUserDomains h c).2 = .ok b ∧
    (∀ now imagePath domain options file fileName nameText extension extText,
      passesUploadChecks h now imagePath domain options = true →
      fileOf h imagePath = .ok file →
      getProp (orDefault options (defaultOptions h now)) "fileName" = .ok fileName →
      toStr h fileName = .ok nameText →
      getProp (orDefault options (defaultOptions h now)) "extension" = .ok extension →
      toStr h extension = .ok extText →
      (uploadImage h c now imagePath domain options).2 = .ok b) ∧
    (∀ now imagePath domain options,
      passesUploadChecks h now imagePath domain options = true →
      (uploadImage h c now imagePath domain options).1 = [] ∨
      (uploadImage h c now imagePath domain options).2 = .ok b) ∧
    (∀ imageID, passesDeleteCheck imageID = true → (deleteImage h c imageID).2 = .ok b) := by
  have hcatch : catchHandler err = .ok b := by
    simp [catchHandler, hresponse, hbody, bind, Except.bind]
  have hupload : ∀ now imagePath domain options file fileName nameText extension extText,
      passesUploadChecks h now imagePath domain options = true →
      fileOf h imagePath = .ok file →
      getProp (orDefault options (defaultOptions h now)) "fileName" = .ok fileName →
      toStr h fileName = .ok nameText →
      getProp (orDefault options (defaultOptions h now)) "extension" = .ok extension →
      toStr h extension = .ok extText →
      (uploadImage h c now imagePath domain options).2 = .ok b := by
    intro now imagePath domain options file fileName nameText extension extText hv hf hname
      hnameText hext hextText
    obtain ⟨hs, hd, ho⟩ := (passesUploadChecks_iff h now imagePath domain options).mp hv
    rw [uploadImage_accepted h c now imagePath domain options hs hd ho,
      uploadBody_ok h c imagePath domain _ file fileName extension nameText extText hf hname
        hnameText hext hextText]
    simp [tryCatch, hfail, hcatch, bind, Except.bind]
  refine ⟨?_, ?_, ?_, ?_, ?_, ?_, hupload, ?_, ?_⟩
  · simp [getSize, tryCatch, hfail, hcatch, bind, Except.bind]
  · intro amount page hv
    obtain ⟨na, np, -, -, hrun⟩ := getUploads_of_passes h c amount page hv
    simp [hrun, tryCatch, hfail, hcatch, bind, Except.bind]
  · simp [getUserInfo, tryCatch, hfail, hcatch, bind, Except.bind]
  · intro user text htext
    simp [getUserInfoByName, htext, tryCatch, hfail, hcatch, bind, Except.bind]
  · intro user e he
    simp [getUserInfoByName, he, tryCatch]
  · simp [getUserDomains, tryCatch, hfail, hcatch, bind, Except.bind]
  · intro now imagePath domain options hv
    obtain ⟨hs, hd, ho⟩ := (passesUploadChecks_iff h now imagePath domain options).mp hv
    obtain ⟨fileName, extension, hname, hext, -, -⟩ := optionsAccepted_reads _ ho
    have hrun := uploadImage_accepted h c now imagePath domain options hs hd ho
    cases hf : fileOf h imagePath with
    | error e =>
      left
      rw [hrun, (uploadBody_thrown h c imagePath domain _).1 e hf]
      rfl
    | ok file =>
      cases hnameText : toStr h fileName with
      | error e =>
        left
        rw [hrun, (uploadBody_thrown h c imagePath domain _).2.1 file fileName e hf hname
          hnameText]
        rfl
      | ok nameText =>
        cases hextText : toStr h extension with
        | error e =>
          left
          rw [hrun, (uploadBody_thrown h c imagePath domain _).2.2 file fileName nameText
            extension e hf hname hnameText hext hextText]
          rfl
        | ok extText =>
          right
          exact hupload now imagePath domain options file fileName nameText extension extText
            hv hf hname hnameText hext hextText
  · intro imageID hv
    obtain ⟨s, rfl, hs⟩ := (passesDeleteCheck_iff imageID).mp hv
    simp [deleteImage_of_string h c s hs, tryCatch, hfail, hcatch, bind, Except.bind]

theorem passes_example_upload (h : Host) (now : Int) :
    passesUploadChecks h now (.string "a.png") (.string "d.com") jpgOptions = true :=
  (passesUploadChecks_iff h now _ _ _).mpr ⟨source_example, domain_example, options_example h now⟩

theorem passes_example_delete : passesDeleteCheck (.string "abc") = true := by
  simp [passesDeleteCheck, truthy, typeOf]

theorem image_prefix_ne_empty (s : String) : "Image-" ++ s ≠ "" := by
  intro hempty
  have hlen := congrArg String.length hempty
  simp [String.length_append] at hlen
  exact absurd hlen.1 (by decide)

theorem passes_default_upload (h : Host) (now : Int) :
    passesUploadChecks h now (.string "a.png") (.string "d.com") .undefined = true := by
  rw [passesUploadChecks_iff]
  refine ⟨source_example, domain_example, ?_⟩
  simp [optionsAccepted, defaultOptions, orDefault, truthy, typeOf, propTruthy, getProp,
    List.lookup, image_prefix_ne_empty]

theorem operations_return_error_body_witness :
    (getSize (exampleHost (.error unauthorizedError)) exampleClient).2 = .ok unauthorizedBody ∧
    (getUploads (exampleHost (.error unauthorizedError)) exampleClient ten ten).2
      = .ok unauthorizedBody ∧
    (getUserInfo (exampleHost (.error unauthorizedError)) exampleClient).2
      = .ok unauthorizedBody ∧
    (getUserInfoByName (exampleHost (.error unauthorizedError)) exampleClient (.string "bob")).2
      = .ok unauthorizedBody ∧
    getUserInfoByName (exampleHost (.error unauthorizedError)) exampleClient (.symbol "bob")
      = ([], catchHandler symbolError) ∧
    (getUserDomains (exampleHost (.error unauthorizedError)) exampleClient).2
      = .ok unauthorizedBody ∧
    (uploadImage (exampleHost (.error unauthorizedError)) exampleClient 1000 (.string "a.png")
      (.string "d.com") jpgOptions).2 = .ok unauthorizedBody ∧
    (uploadImage (exampleHost (.error unauthorizedError)) exampleClient 1000 (.string "a.png")
      (.string "d.com") .undefined).2 = .ok unauthorizedBody ∧
    ((uploadImage (exampleHost (.error unauthorizedError)) exampleClient 1000 (.string "a.png")
      (.string "d.com") jpgOptions).1 = [] ∨
      (uploadImage (exampleHost (.error unauthorizedError)) exampleClient 1000 (.string "a.png")
      (.string "d.com") jpgOptions).2 = .ok unauthorizedBody) ∧
    (deleteImage (exampleHost (.error unauthorizedError)) exampleClient (.string "abc")).2
      = .ok unauthorizedBody :=
  have w := operations_return_error_body (exampleHost (.error unauthorizedError)) exampleClient
    unauthorizedError
    (.object [("status", .number (.finite 401 0)), ("data", unauthorizedBody)])
    unauthorizedBody (fun _ => rfl)
    (by simp [unauthorizedError, getProp, List.lookup])
    (by simp [getProp, List.lookup])
  ⟨w.1, w.2.1 ten ten passes_example_uploads, w.2.2.1,
    w.2.2.2.1 (.string "bob") "bob" (toStr_string _ _),
    w.2.2.2.2.1 (.symbol "bob") symbolError (toStr_symbol _ _),
    w.2.2.2.2.2.1,
    w.2.2.2.2.2.2.1 1000 (.string "a.png") (.string "d.com") jpgOptions (.stream "a.png")
      (.string "cat") "cat" (.string "jpg") "jpg"
      (passes_example_upload _ _) (fileOf_example _)
      (by simp [jpgOptions, orDefault, getProp, List.lookup]) (toStr_string _ _)
      (by simp [jpgOptions, orDefault, getProp, List.lookup]) (toStr_string _ _),
    w.2.2.2.2.2.2.1 1000 (.string "a.png") (.string "d.com") .undefined (.stream "a.png")
      (.string ("Image-" ++ numToStr (exampleHost (.error unauthorizedError)) (.finite 1000 0)))
      ("Image-" ++ numToStr (exampleHost (.error unauthorizedError)) (.finite 1000 0))
      (.string "png") "png"
      (passes_default_upload _ _) (fileOf_example _)
      (by simp [defaultOptions, orDefault, getProp, List.lookup]) (toStr_string _ _)
      (by simp [defaultOptions, orDefault, getProp, List.lookup]) (toStr_string _ _),
    w.2.2.2.2.2.2.2.1 1000 (.string "a.png") (.string "d.com") jpgOptions
      (passes_example_upload _ _),
    w.2.2.2.2.2.2.2.2 (.string "abc") passes_example_delete⟩

theorem nullResponse_payload : getProp nullResponse "data" = .ok .null := by
  simp [nullResponse, getProp, List.lookup]

theorem userResponse_payload :
    getProp userResponse "data" = .ok (.object [("data", .object [("id", .number (.finite 1 0))])]) := by
  simp [userResponse, getProp, List.lookup]

/-- C3, as stated, fails: on a response whose payload is `null`, `getUserInfo`
and `getUploads` reject; on a response with the user payload,
`getUserInfoByName` on a Symbol and `uploadImage` on a path with a NUL
character hand nothing to the transport and reject. -/
theorem payload_selection_can_fail :
    (getUserInfo (exampleHost (.ok nullResponse)) exampleClient).2
      = .error (nullishRead "undefined" "data") ∧
    (getUploads (exampleHost (.ok nullResponse)) exampleClient ten ten).2
      = .error (nullishRead "undefined" "data") ∧
    getUserInfoByName (exampleHost (.ok userResponse)) exampleClient (.symbol "user")
      = ([], .error (nullishRead "undefined" "data")) ∧
    uploadImage (exampleHost (.ok userResponse)) exampleClient 1000 (.string nulPath)
      (.string "d.com") jpgOptions = ([], .error (nullishRead "undefined" "data")) := by
  have hnull : ∀ req, (exampleHost (.ok nullResponse)).transport req = .ok nullResponse :=
    fun _ => rfl
  have hread : getProp JSVal.null "data" = .error (.error "TypeError"
      ("Cannot read properties of " ++ "null" ++ " (reading \x27" ++ "data" ++ "\x27)")) := rfl
  refine ⟨?_, ?_, ?_, upload_nulPath _ _ _⟩
  · simp only [getUserInfo, tryCatch, hnull, bind, Except.bind, nullResponse_payload, hread,
      catchHandler_native]
  · obtain ⟨na, np, -, -, hrun⟩ :=
      getUploads_of_passes (exampleHost (.ok nullResponse)) exampleClient ten ten
        passes_example_uploads
    rw [hrun]
    simp only [tryCatch, hnull, bind, Except.bind, nullResponse_payload, hread,
      catchHandler_native]
  · simp [getUserInfoByName, toStr_symbol, tryCatch, symbolError, catchHandler_native]

/-- C3, amended. When the transport resolves every call with a response whose
payload (`res.data`) is `p`: if `p` is neither `undefined` nor `null`,
`getUserInfo`, `getUploads` (arguments passing its checks) and
`getUserInfoByName` (a `user` that can be printed) resolve to `p.data`, and if
`p` is `undefined` or `null` they reject; `getSize`, `getUserDomains`,
`deleteImage` (argument passing its check) and `uploadImage` (arguments passing
its checks, a source that can be turned into the content of a part, a file name
and an extension that can be printed) resolve to `p`. -/
theorem operations_select_payload (h : Host) (c : Client) (res p : JSVal)
    (hres : ∀ req, h.transport req = .ok res)
    (hp : getProp res "data" = .ok p) :
    (p ≠ .undefined → p ≠ .null →
      ∃ d, getProp p "data" = .ok d ∧
        (∀ amount page, passesGetUploadsChecks amount page = true →
          (getUploads h c amount page).2 = .ok d) ∧
        (getUserInfo h c).2 = .ok d ∧
        (∀ user text, toStr h user = .ok text → (getUserInfoByName h c user).2 = .ok d)) ∧
    ((p = .undefined ∨ p = .null) →
      (∀ amount page, passesGetUploadsChecks amount page = true →
        (getUploads h c amount page).2 = .error (nullishRead "undefined" "data")) ∧
      (getUserInfo h c).2 = .error (nullishRead "undefined" "data") ∧
      (∀ user text, toStr h user = .ok text →
        (getUserInfoByName h c user).2 = .error (nullishRead "undefined" "data"))) ∧
    (getSize h c).2 = .ok p ∧
    (getUserDomains h c).2 = .ok p ∧
    (∀ now imagePath domain options file fileName nameText extension extText,
      passesUploadChecks h now imagePath domain options = true →
      fileOf h imagePath = .ok file →
      getProp (orDefault options (defaultOptions h now)) "fileName" = .ok fileName →
      toStr h fileName = .ok nameText →
      getProp (orDefault options (defaultOptions h now)) "extension" = .ok extension →
      toStr h extension = .ok extText →
      (uploadImage h c now imagePath domain options).2 = .ok p) ∧
    (∀ imageID, passesDeleteCheck imageID = true → (deleteImage h c imageID).2 = .ok p) := by
  refine ⟨?_, ?_, ?_, ?_, ?_, ?_⟩
  · intro hu hn
    obtain ⟨d, hd⟩ := getProp_total p "data" hu hn
    refine ⟨d, hd, ?_, ?_, ?_⟩
    · intro amount page hv
      obtain ⟨na, np, -, -, hrun⟩ := getUploads_of_passes h c amount page hv
      simp [hrun, tryCatch, hres, hp, hd, bind, Except.bind]
    · simp [getUserInfo, tryCatch, hres, hp, hd, bind, Except.bind]
    · intro user text htext
      simp [getUserInfoByName, htext, tryCatch, hres, hp, hd, bind, Except.bind]
  · intro hnull
    have hread : ∃ what, getProp p "data" = .error (.error "TypeError" what) := by
      rcases hnull with rfl | rfl <;> exact ⟨_, rfl⟩
    obtain ⟨what, hd⟩ := hread
    refine ⟨?_, ?_, ?_⟩
    · intro amount page hv
      obtain ⟨na, np, -, -, hrun⟩ := getUploads_of_passes h c amount page hv
      simp [hrun, tryCatch, hres, hp, hd, catchHandler_native, bind, Except.bind]
    · simp [getUserInfo, tryCatch, hres, hp, hd, catchHandler_native, bind, Except.bind]
    · intro user text htext
      simp [getUserInfoByName, htext, tryCatch, hres, hp, hd, catchHandler_native, bind,
        Except.bind]
  · simp [getSize, tryCatch, hres, hp, bind, Except.bind]
  · simp [getUserDomains, tryCatch, hres, hp, bind, Except.bind]
  · intro now imagePath domain options file fileName nameText extension extText hv hf hname
      hnameText hext hextText
    obtain ⟨hs, hd, ho⟩ := (passesUploadChecks_iff h now imagePath domain options).mp hv
    rw [uploadImage_accepted h c now imagePath domain options hs hd ho,
      uploadBody_ok h c imagePath domain _ file fileName extension nameText extText hf hname
        hnameText hext hextText]
    simp [tryCatch, hres, hp, bind, Except.bind]
  · intro imageID hv
    obtain ⟨s, rfl, hs⟩ := (passesDeleteCheck_iff imageID).mp hv
    simp [deleteImage_of_string h c s hs, tryCatch, hres, hp, bind, Except.bind]

theorem operations_select_payload_witness :
    (∃ d, getProp (.object [("data", .object [("id", .number (.finite 1 0))])]) "data" = .ok d ∧
      (∀ amount page, passesGetUploadsChecks amount page = true →
        (getUploads (exampleHost (.ok userResponse)) exampleClient amount page).2 = .ok d) ∧
      (getUserInfo (exampleHost (.ok userResponse)) exampleClient).2 = .ok d ∧
      (∀ user text, toStr (exampleHost (.ok userResponse)) user = .ok text →
        (getUserInfoByName (exampleHost (.ok userResponse)) exampleClient user).2 = .ok d)) ∧
    (getUserInfo (exampleHost (.ok nullResponse)) exampleClient).2
      = .error (nullishRead "undefined" "data") ∧
    (getSize (exampleHost (.ok userResponse)) exampleClient).2
      = .ok (.object [("data", .object [("id", .number (.finite 1 0))])]) ∧
    (getSize (exampleHost (.ok nullResponse)) exampleClient).2 = .ok .null ∧
    (getUserDomains (exampleHost (.ok userResponse)) exampleClient).2
      = .ok (.object [("data", .object [("id", .number (.finite 1 0))])]) ∧
    (uploadImage (exampleHost (.ok userResponse)) exampleClient 1000 (.string "a.png")
      (.string "d.com") jpgOptions).2
      = .ok (.object [("data", .object [("id", .number (.finite 1 0))])]) ∧
    (deleteImage (exampleHost (.ok userResponse)) exampleClient (.string "abc")).2
      = .ok (.object [("data", .object [("id", .number (.finite 1 0))])]) :=
  have w := operations_select_payload (exampleHost (.ok userResponse)) exampleClient
    userResponse (.object [("data", .object [("id", .number (.finite 1 0))])]) (fun _ => rfl)
    userResponse_payload
  have n := operations_select_payload (exampleHost (.ok nullResponse)) exampleClient
    nullResponse .null (fun _ => rfl) nullResponse_payload
  ⟨w.1 (by simp) (by simp), (n.2.1 (Or.inr rfl)).2.1, w.2.2.1, n.2.2.1, w.2.2.2.1,
    w.2.2.2.2.1 1000 (.string "a.png") (.string "d.com") jpgOptions (.stream "a.png")
      (.string "cat") "cat" (.string "jpg") "jpg"
      (passes_example_upload _ _) (fileOf_example _)
      (by simp [jpgOptions, orDefault, getProp, List.lookup]) (toStr_string _ _)
      (by simp [jpgOptions, orDefault, getProp, List.lookup]) (toStr_string _ _),
    w.2.2.2.2.2 (.string "abc") passes_example_delete⟩

/-- A `try` block that returns the payload resolves when the outcome carries a body. -/
theorem payload_block_settles (h : Host) (req : Request) (hout : CarriesBody (h.transport req)) :
    ∃ v, (tryCatch ([req], do
      let res ← h.transport req
      getProp res "data")).2 = .ok v := by
  rcases hout with ⟨res, p, hres, hp⟩ | ⟨err, response, b, herr, hr, hb⟩
  · exact ⟨p, by simp [tryCatch, hres, hp, bind, Except.bind]⟩
  · exact ⟨b, by simp [tryCatch, herr, catchHandler, hr, hb, bind, Except.bind]⟩

/-- A `try` block that returns the `data` field of the payload resolves when the
outcome carries a body and the payload of a response is not nullish. -/
theorem nested_block_settles (h : Host) (req : Request) (hout : CarriesBody (h.transport req))
    (hnn : PayloadNotNullish (h.transport req)) :
    ∃ v, (tryCatch ([req], do
      let res ← h.transport req
      let data ← getProp res "data"
      getProp data "data")).2 = .ok v := by
  rcases hout with ⟨res, p, hres, hp⟩ | ⟨err, response, b, herr, hr, hb⟩
  · obtain ⟨hu, hn⟩ := hnn res p hres hp
    obtain ⟨d, hd⟩ := getProp_total p "data" hu hn
    exact ⟨d, by simp [tryCatch, hres, hp, hd, bind, Except.bind]⟩
  · exact ⟨b, by simp [tryCatch, herr, catchHandler, hr, hb, bind, Except.bind]⟩

theorem convertible_iff (h : Host) (v : JSVal) :
    convertible h v = true ↔ ∃ s, toStr h v = .ok s := by
  unfold convertible
  cases toStr h v <;> simp

/-- C2, as stated, fails: with a transport error that carries no response
`getSize` rejects; with a response whose payload is `null`, `getUserInfo`
rejects; with a source that `Buffer.from` refuses, `uploadImage` rejects.  Each
time the rejection is the `TypeError` of reading `data` of `undefined` in the
`catch` handler. -/
theorem operations_can_reject :
    (getSize (exampleHost (.error networkError)) exampleClient).2
      = .error (nullishRead "undefined" "data") ∧
    (getUserInfo (exampleHost (.ok (.object [("data", .null)]))) exampleClient).2
      = .error (nullishRead "undefined" "data") ∧
    (uploadImage (exampleHost (.ok userResponse)) exampleClient 1000 (.object [])
      (.string "d.com") jpgOptions).2 = .error (nullishRead "undefined" "data") := by
  refine ⟨?_, ?_, ?_⟩
  · simp [getSize, tryCatch, exampleHost, networkError, catchHandler, getProp, bind, Except.bind]
  · simp [getUserInfo, tryCatch, exampleHost, catchHandler, getProp, nullishRead, List.lookup,
      bind, Except.bind]
  · rw [uploadImage_accepted _ _ _ _ _ _ (by simp [sourceAccepted, truthy, typeOf])
        domain_example (options_example _ _),
      (uploadBody_thrown _ _ _ _ _).1 _ (by simp [fileOf, bufferFrom, exampleHost]; rfl)]
    simp [tryCatch, catchHandler_native]

/-- C2, amended. When every transport outcome carries a body (a response whose
payload can be read, `null` included, or an error with a response), `getSize`
and `getUserDomains` resolve; `deleteImage` resolves when an argument that
fails its check can be printed; `uploadImage` resolves when a source or domain
that fails its check can be printed and, for arguments that pass the checks,
the source can be turned into the content of a part and the file name and
extension can be printed.  When moreover no response has a payload that is
`undefined` or `null`, `getUserInfo` resolves, `getUserInfoByName` resolves
when `user` can be printed, and `getUploads` resolves when a count that fails
its check can be printed. -/
theorem operations_resolve_when_body_present (h : Host) (c : Client)
    (hout : ∀ req, CarriesBody (h.transport req)) :
    (∃ v, (getSize h c).2 = .ok v) ∧
    (∃ v, (getUserDomains h c).2 = .ok v) ∧
    (∀ imageID, (passesDeleteCheck imageID = false → convertible h imageID = true) →
      ∃ v, (deleteImage h c imageID).2 = .ok v) ∧
    (∀ now imagePath domain options,
      (sourceAccepted imagePath = false → convertible h imagePath = true) →
      (sourceAccepted imagePath = true → domainAccepted domain = false →
        convertible h domain = true) →
      (passesUploadChecks h now imagePath domain options = true →
        (∃ file, fileOf h imagePath = .ok file) ∧
        (∀ fileName, getProp (orDefault options (defaultOptions h now)) "fileName" = .ok fileName →
          convertible h fileName = true) ∧
        (∀ extension,
          getProp (orDefault options (defaultOptions h now)) "extension" = .ok extension →
          convertible h extension = true)) →
      ∃ v, (uploadImage h c now imagePath domain options).2 = .ok v) ∧
    ((∀ req, PayloadNotNullish (h.transport req)) →
      (∃ v, (getUserInfo h c).2 = .ok v) ∧
      (∀ user, convertible h user = true → ∃ v, (getUserInfoByName h c user).2 = .ok v) ∧
      (∀ amount page,
        (countAccepted amount = false → convertible h amount = true) →
        (countAccepted amount = true → countAccepted page = false →
          convertible h page = true) →
        ∃ v, (getUploads h c amount page).2 = .ok v)) := by
  refine ⟨?_, ?_, ?_, ?_, ?_⟩
  · exact payload_block_settles h _ (hout _)
  · exact payload_block_settles h _ (hout _)
  · intro imageID hprint
    cases hv : passesDeleteCheck imageID with
    | false =>
      obtain ⟨s, hs⟩ := (convertible_iff h imageID).mp (hprint hv)
      rw [deleteImage_rejected h c imageID hv, invalidValue_ok h imageID "imageID" s hs]
      exact ⟨_, rfl⟩
    | true =>
      obtain ⟨s, rfl, hs⟩ := (passesDeleteCheck_iff imageID).mp hv
      rw [deleteImage_of_string h c s hs]
      exact payload_block_settles h _ (hout _)
  · intro now imagePath domain options hsrc hdom hbuild
    cases hs : sourceAccepted imagePath with
    | false =>
      obtain ⟨s, hstr⟩ := (convertible_iff h imagePath).mp (hsrc hs)
      rw [uploadImage_source_rejected h c now imagePath domain options hs,
        invalidValue_ok h imagePath "imagePath" s hstr]
      exact ⟨_, rfl⟩
    | true =>
      cases hd : domainAccepted domain with
      | false =>
        obtain ⟨s, hstr⟩ := (convertible_iff h domain).mp (hdom hs hd)
        rw [uploadImage_domain_rejected h c now imagePath domain options hs hd,
          invalidValue_ok h domain "domain" s hstr]
        exact ⟨_, rfl⟩
      | true =>
        cases ho : optionsAccepted (orDefault options (defaultOptions h now)) with
        | false =>
          rw [uploadImage_options_rejected h c now imagePath domain options hs hd ho]
          exact ⟨_, rfl⟩
        | true =>
          have hv := (passesUploadChecks_iff h now imagePath domain options).mpr ⟨hs, hd, ho⟩
          obtain ⟨⟨file, hf⟩, hnameOk, hextOk⟩ := hbuild hv
          obtain ⟨fileName, extension, hname, hext, -, -⟩ := optionsAccepted_reads _ ho
          obtain ⟨nameText, hnameText⟩ := (convertible_iff h fileName).mp (hnameOk fileName hname)
          obtain ⟨extText, hextText⟩ := (convertible_iff h extension).mp (hextOk extension hext)
          rw [uploadImage_accepted h c now imagePath domain options hs hd ho,
            uploadBody_ok h c imagePath domain _ file fileName extension nameText extText hf
              hname hnameText hext hextText]
          exact payload_block_settles h _ (hout _)
  · intro hnn
    refine ⟨nested_block_settles h _ (hout _) (hnn _), ?_, ?_⟩
    · intro user hprint
      obtain ⟨text, htext⟩ := (convertible_iff h user).mp hprint
      simp only [getUserInfoByName, htext]
      exact nested_block_settles h _ (hout _) (hnn _)
    · intro amount page hamount hpage
      cases ha : countAccepted amount with
      | false =>
        obtain ⟨s, hs⟩ := (convertible_iff h amount).mp (hamount ha)
        rw [getUploads_amount_rejected h c amount page ha]
        refine ⟨mkError (s ++ " is not a valid value for \"amount\"."), ?_⟩
        simp [hs, tryCatch]
      | true =>
        cases hpg : countAccepted page with
        | false =>
          obtain ⟨s, hs⟩ := (convertible_iff h page).mp (hpage ha hpg)
          rw [getUploads_page_rejected h c amount page ha hpg]
          refine ⟨mkError (s ++ " is not a valid value for \"page\"."), ?_⟩
          simp [hs, tryCatch]
        | true =>
          obtain ⟨na, np, -, -, hrun⟩ := getUploads_of_passes h c amount page
            (by simp [passesGetUploadsChecks, ha, hpg])
          rw [hrun]
          exact nested_block_settles h _ (hout _) (hnn _)

theorem carriesBody_unauthorized : CarriesBody (.error unauthorizedError) :=
  Or.inr ⟨unauthorizedError,
    .object [("status", .number (.finite 401 0)), ("data", unauthorizedBody)], unauthorizedBody,
    rfl, by simp [unauthorizedError, getProp, List.lookup], by simp [getProp, List.lookup]⟩

theorem carriesBody_null : CarriesBody (.ok nullResponse) :=
  Or.inl ⟨nullResponse, .null, rfl, nullResponse_payload⟩

theorem convertible_undefined (h : Host) : convertible h .undefined = true := by
  simp [convertible, toStr]

theorem convertible_string (h : Host) (s : String) : convertible h (.string s) = true := by
  simp [convertible, toStr]

theorem operations_resolve_when_body_present_witness :
    (∃ v, (getSize (exampleHost (.ok nullResponse)) exampleClient).2 = .ok v) ∧
    (∃ v, (getUserDomains (exampleHost (.ok nullResponse)) exampleClient).2 = .ok v) ∧
    (∃ v, (deleteImage (exampleHost (.ok nullResponse)) exampleClient (.string "abc")).2
      = .ok v) ∧
    (∃ v, (deleteImage (exampleHost (.ok nullResponse)) exampleClient .undefined).2 = .ok v) ∧
    (∃ v, (uploadImage (exampleHost (.ok nullResponse)) exampleClient 1000
      (.string "a.png") (.string "d.com") jpgOptions).2 = .ok v) ∧
    (∃ v, (getUserInfo (exampleHost (.error unauthorizedError)) exampleClient).2 = .ok v) ∧
    (∃ v, (getUserInfoByName (exampleHost (.error unauthorizedError)) exampleClient
      .undefined).2 = .ok v) ∧
    (∃ v, (getUploads (exampleHost (.error unauthorizedError)) exampleClient .undefined ten).2
      = .ok v) :=
  have w := operations_resolve_when_body_present (exampleHost (.ok nullResponse))
    exampleClient (fun _ => carriesBody_null)
  have u := operations_resolve_when_body_present (exampleHost (.error unauthorizedError))
    exampleClient (fun _ => carriesBody_unauthorized)
  have un := u.2.2.2.2 (fun _ res p hres _ => by cases hres)
  ⟨w.1, w.2.1,
    w.2.2.1 (.string "abc") (fun _ => convertible_string _ _),
    w.2.2.1 .undefined (fun _ => convertible_undefined _),
    w.2.2.2.1 1000 (.string "a.png") (.string "d.com") jpgOptions
      (fun _ => convertible_string _ _) (fun _ _ => convertible_string _ _)
      (fun _ => ⟨⟨.stream "a.png", fileOf_example _⟩,
        fun fileName hname => by
          simp [jpgOptions, orDefault, getProp, List.lookup] at hname
          subst hname
          exact convertible_string _ _,
        fun extension hext => by
          simp [jpgOptions, orDefault, getProp, List.lookup] at hext
          subst hext
          exact convertible_string _ _⟩),
    un.1, un.2.1 .undefined (convertible_undefined _),
    un.2.2 .undefined ten (fun _ => convertible_undefined _)
      (fun ha => by simp [countAccepted, truthy] at ha)⟩

theorem decimalInt_no_slash (m : Int) : ∀ ch ∈ (decimalInt m).data, ch ≠ '/' := by
  intro ch hch
  unfold decimalInt at hch
  split_ifs at hch
  · simp only [String.data_append, List.mem_append] at hch
    rcases hch with hch | hch
    · simp at hch
      subst hch
      decide
    · exact decimal_no_slash _ ch hch
  · exact decimal_no_slash _ ch hch

theorem default_name_no_slash (m : Int) :
    ∀ ch ∈ ("Image-" ++ decimalInt m ++ "." ++ "png").data, ch ≠ '/' := by
  intro ch hch
  simp only [String.data_append, List.mem_append] at hch
  rcases hch with ((hch | hch) | hch) | hch
  · simp at hch
    rcases hch with rfl | rfl | rfl | rfl | rfl | rfl <;> decide
  · exact decimalInt_no_slash m ch hch
  · simp at hch
    subst hch
    decide
  · simp at hch
    rcases hch with rfl | rfl | rfl <;> decide

theorem default_name_assoc (s : String) : "Image-" ++ s ++ "." ++ "png" = "Image-" ++ s ++ ".png" := by
  rw [String.append_assoc ("Image-" ++ s) "." "png"]
  rfl

theorem defaultOptions_accepted (h : Host) (now : Int) :
    optionsAccepted (orDefault .undefined (defaultOptions h now)) = true := by
  simp [optionsAccepted, defaultOptions, orDefault, truthy, typeOf, propTruthy, getProp,
    List.lookup, image_prefix_ne_empty]

/-- An upload that omits `options`, with accepted source and domain and a source
that can be turned into the content of a part: one request whose part is named
after the clock reading of the call. -/
theorem upload_default (h : Host) (c : Client) (now : Int) (imagePath domain file : JSVal)
    (hs : sourceAccepted imagePath = true) (hd : domainAccepted domain = true)
    (hf : fileOf h imagePath = .ok file) (hsmall : now.natAbs < 10 ^ 21) :
    uploadImage h c now imagePath domain .undefined =
      tryCatch ([uploadRequest h c domain file ("Image-" ++ decimalInt now ++ ".png")], do
        let res ← h.transport
          (uploadRequest h c domain file ("Image-" ++ decimalInt now ++ ".png"))
        getProp res "data") := by
  rw [uploadImage_accepted h c now imagePath domain .undefined hs hd
      (defaultOptions_accepted h now),
    uploadBody_ok h c imagePath domain _ file (.string ("Image-" ++ decimalInt now))
      (.string "png") ("Image-" ++ decimalInt now) "png" hf
      (by simp [orDefault, defaultOptions, getProp, List.lookup, numToStr_clock h now hsmall])
      (toStr_string h _)
      (by simp [orDefault, defaultOptions, getProp, List.lookup])
      (toStr_string h _),
    basename_of_no_slash _ (default_name_no_slash now), default_name_assoc]

theorem partsSent_single (h : Host) (c : Client) (domain file : JSVal) (filename : String)
    (k : Except JSVal JSVal) :
    partsSent (tryCatch ([uploadRequest h c domain file filename], k))
      = [[⟨"file", file, filename⟩]] := by
  simp [partsSent, tryCatch, uploadRequest]

theorem partFilenames_single (h : Host) (c : Client) (domain file : JSVal) (filename : String)
    (k : Except JSVal JSVal) :
    partFilenames (tryCatch ([uploadRequest h c domain file filename], k)) = [[filename]] := by
  simp [partFilenames, tryCatch, uploadRequest]

theorem decimalInt_1000 : decimalInt 1000 = "1000" := by
  simp [decimalInt, decimal]
  rfl

theorem decimalInt_2000 : decimalInt 2000 = "2000" := by
  simp [decimalInt, decimal]
  rfl

theorem objectSource_accepted : sourceAccepted (.object []) = true := by
  simp [sourceAccepted, truthy, typeOf]

theorem fileOf_objectSource (outcome : Except JSVal JSVal) :
    fileOf (exampleHost outcome) (.object []) = .error (.error "TypeError"
      "The first argument must be of type string or an instance of Buffer") := rfl

/-- C9, as stated, fails: with the file name `dir/cat` and the extension `jpg`
the part is named `cat.jpg`, not `dir/cat.jpg`; and with a source that passes
the checks but cannot be turned into the content of a part (an object
`Buffer.from` refuses, a path with a NUL character) no body reaches the
transport. -/
theorem upload_filename_is_last_component :
    partFilenames (uploadImage (exampleHost (.ok userResponse)) exampleClient 1000
      (.string "a.png") (.string "d.com") nestedOptions) = [["cat.jpg"]] ∧
    "cat.jpg" ≠ "dir/cat" ++ "." ++ "jpg" ∧
    passesUploadChecks (exampleHost (.ok userResponse)) 1000 (.object []) (.string "d.com")
      jpgOptions = true ∧
    (uploadImage (exampleHost (.ok userResponse)) exampleClient 1000 (.object [])
      (.string "d.com") jpgOptions).1 = [] ∧
    passesUploadChecks (exampleHost (.ok userResponse)) 1000 (.string nulPath) (.string "d.com")
      jpgOptions = true ∧
    (uploadImage (exampleHost (.ok userResponse)) exampleClient 1000 (.string nulPath)
      (.string "d.com") jpgOptions).1 = [] := by
  refine ⟨?_, by decide, ?_, ?_, ?_, ?_⟩
  · rw [uploadImage_accepted _ _ _ _ _ _ source_example domain_example
        (by simp [optionsAccepted, nestedOptions, orDefault, truthy, typeOf, propTruthy, getProp,
          List.lookup]),
      uploadBody_ok _ _ _ _ _ (.stream "a.png") (.string "dir/cat") (.string "jpg") "dir/cat"
        "jpg" (fileOf_example _) (by simp [nestedOptions, orDefault, getProp, List.lookup])
        (toStr_string _ _) (by simp [nestedOptions, orDefault, getProp, List.lookup])
        (toStr_string _ _),
      partFilenames_single]
    decide
  · exact (passesUploadChecks_iff _ _ _ _ _).mpr
      ⟨objectSource_accepted, domain_example, options_example _ _⟩
  · rw [uploadImage_accepted _ _ _ _ _ _ objectSource_accepted domain_example
        (options_example _ _),
      (uploadBody_thrown _ _ _ _ _).1 _ (fileOf_objectSource _)]
    rfl
  · exact (passesUploadChecks_iff _ _ _ _ _).mpr
      ⟨nulPath_accepted, domain_example, options_example _ _⟩
  · rw [upload_nulPath]

/-- C9, amended. For an upload whose source and domain pass their checks:
the content of the part is the stream over the path for a string path without
a NUL character (`fs.createReadStream` throws on one), the same bytes for a
buffer, and otherwise what `Buffer.from` makes of the source.  When the content
can be built: with `options` omitted the transport is handed one body with
exactly one part, named `file`, with the file name `Image-<clock reading>.png`;
with options that pass their check and a file name and extension that print as
`n` and `x`, one body with exactly one part, named `file`, whose file name is
the last path component of `n.x`, which is `n.x` itself when it holds no slash.
When the content cannot be built, or the file name or the extension cannot be
printed, nothing is handed to the transport. -/
theorem upload_builds_single_file_part (h : Host) (c : Client) (now : Int)
    (imagePath domain options : JSVal)
    (hs : sourceAccepted imagePath = true) (hd : domainAccepted domain = true) :
    (∀ path, imagePath = .string path →
      fileOf h imagePath =
        if path.toList.contains (Char.ofNat 0) then .error invalidPathError
        else .ok (.stream path)) ∧
    (∀ bytes, imagePath = .buffer bytes → fileOf h imagePath = .ok (.buffer bytes)) ∧
    ((∀ path, imagePath ≠ .string path) → fileOf h imagePath = bufferFrom h imagePath) ∧
    (∀ file, options = .undefined → now.natAbs < 10 ^ 21 → fileOf h imagePath = .ok file →
      partsSent (uploadImage h c now imagePath domain options)
        = [[⟨"file", file, "Image-" ++ decimalInt now ++ ".png"⟩]]) ∧
    (∀ file fileName nameText extension extText,
      optionsAccepted (orDefault options (defaultOptions h now)) = true →
      fileOf h imagePath = .ok file →
      getProp (orDefault options (defaultOptions h now)) "fileName" = .ok fileName →
      toStr h fileName = .ok nameText →
      getProp (orDefault options (defaultOptions h now)) "extension" = .ok extension →
      toStr h extension = .ok extText →
      partsSent (uploadImage h c now imagePath domain options)
        = [[⟨"file", file, basename (nameText ++ "." ++ extText)⟩]] ∧
      ((∀ ch ∈ (nameText ++ "." ++ extText).data, ch ≠ '/') →
        basename (nameText ++ "." ++ extText) = nameText ++ "." ++ extText)) ∧
    (optionsAccepted (orDefault options (defaultOptions h now)) = true →
      (∀ e, fileOf h imagePath = .error e →
        (uploadImage h c now imagePath domain options).1 = []) ∧
      (∀ fileName e,
        getProp (orDefault options (defaultOptions h now)) "fileName" = .ok fileName →
        toStr h fileName = .error e →
        (uploadImage h c now imagePath domain options).1 = []) ∧
      (∀ extension e,
        getProp (orDefault options (defaultOptions h now)) "extension" = .ok extension →
        toStr h extension = .error e →
        (uploadImage h c now imagePath domain options).1 = [])) := by
  refine ⟨?_, ?_, ?_, ?_, ?_, ?_⟩
  · rintro path rfl
    rfl
  · rintro bytes rfl
    rfl
  · intro hns
    cases imagePath <;> first | rfl | exact absurd rfl (hns _)
  · rintro file rfl hsmall hf
    rw [upload_default h c now imagePath domain file hs hd hf hsmall, partsSent_single]
  · intro file fileName nameText extension extText ho hf hname hnameText hext hextText
    constructor
    · rw [uploadImage_accepted h c now imagePath domain options hs hd ho,
        uploadBody_ok h c imagePath domain _ file fileName extension nameText extText hf hname
          hnameText hext hextText, partsSent_single]
    · intro hslash
      exact basename_of_no_slash _ hslash
  · intro ho
    have hrun := uploadImage_accepted h c now imagePath domain options hs hd ho
    have hbody : ∀ e, (uploadBody h c imagePath domain
        (orDefault options (defaultOptions h now))) = ([], .error e) →
        (uploadImage h c now imagePath domain options).1 = [] := by
      intro e he
      rw [hrun, he]
      rfl
    refine ⟨?_, ?_, ?_⟩
    · intro e hf
      exact hbody e ((uploadBody_thrown h c imagePath domain _).1 e hf)
    · intro fileName e hname hnameText
      cases hf : fileOf h imagePath with
      | error e2 => exact hbody e2 ((uploadBody_thrown h c imagePath domain _).1 e2 hf)
      | ok file =>
        exact hbody e ((uploadBody_thrown h c imagePath domain _).2.1 file fileName e hf hname
          hnameText)
    · intro extension e hext hextText
      cases hf : fileOf h imagePath with
      | error e2 => exact hbody e2 ((uploadBody_thrown h c imagePath domain _).1 e2 hf)
      | ok file =>
        obtain ⟨fileName, -, hname, -, -, -⟩ := optionsAccepted_reads _ ho
        cases hnameText : toStr h fileName with
        | error e3 =>
          exact hbody e3 ((uploadBody_thrown h c imagePath domain _).2.1 file fileName e3 hf
            hname hnameText)
        | ok nameText =>
          exact hbody e ((uploadBody_thrown h c imagePath domain _).2.2 file fileName nameText
            extension e hf hname hnameText hext hextText)

theorem upload_builds_single_file_part_witness :
    fileOf (exampleHost (.ok userResponse)) (.string "a.png") = .ok (.stream "a.png") ∧
    fileOf (exampleHost (.ok userResponse)) (.string nulPath) = .error invalidPathError ∧
    fileOf (exampleHost (.ok userResponse)) (.buffer [137, 80]) = .ok (.buffer [137, 80]) ∧
    partsSent (uploadImage (exampleHost (.ok userResponse)) exampleClient 1000
      (.string "a.png") (.string "d.com") .undefined)
      = [[⟨"file", .stream "a.png", "Image-" ++ decimalInt 1000 ++ ".png"⟩]] ∧
    partsSent (uploadImage (exampleHost (.ok userResponse)) exampleClient 1000
      (.buffer [137, 80]) (.string "d.com") jpgOptions)
      = [[⟨"file", .buffer [137, 80], basename ("cat" ++ "." ++ "jpg")⟩]] ∧
    basename ("cat" ++ "." ++ "jpg") = "cat" ++ "." ++ "jpg" ∧
    (uploadImage (exampleHost (.ok userResponse)) exampleClient 1000 (.object [])
      (.string "d.com") jpgOptions).1 = [] ∧
    (uploadImage (exampleHost (.ok userResponse)) exampleClient 1000 (.string "a.png")
      (.string "d.com") (.object [("extension", .string "jpg"), ("fileName", unprintable)])).1
      = [] :=
  have hbuf : sourceAccepted (.buffer [137, 80]) = true := by simp [sourceAccepted, truthy, typeOf]
  have hname : getProp (orDefault jpgOptions (defaultOptions (exampleHost (.ok userResponse)) 1000))
      "fileName" = .ok (.string "cat") := by simp [jpgOptions, orDefault, getProp, List.lookup]
  have hext : getProp (orDefault jpgOptions (defaultOptions (exampleHost (.ok userResponse)) 1000))
      "extension" = .ok (.string "jpg") := by simp [jpgOptions, orDefault, getProp, List.lookup]
  have w1 := upload_builds_single_file_part (exampleHost (.ok userResponse)) exampleClient 1000
    (.string "a.png") (.string "d.com") .undefined source_example domain_example
  have w2 := upload_builds_single_file_part (exampleHost (.ok userResponse)) exampleClient 1000
    (.string nulPath) (.string "d.com") .undefined nulPath_accepted domain_example
  have w3 := upload_builds_single_file_part (exampleHost (.ok userResponse)) exampleClient 1000
    (.buffer [137, 80]) (.string "d.com") jpgOptions hbuf domain_example
  have w4 := upload_builds_single_file_part (exampleHost (.ok userResponse)) exampleClient 1000
    (.object []) (.string "d.com") jpgOptions objectSource_accepted domain_example
  have w5 := upload_builds_single_file_part (exampleHost (.ok userResponse)) exampleClient 1000
    (.string "a.png") (.string "d.com")
    (.object [("extension", .string "jpg"), ("fileName", unprintable)])
    source_example domain_example
  have p3 := w3.2.2.2.2.1 (.buffer [137, 80]) (.string "cat") "cat" (.string "jpg") "jpg"
    (options_example _ _) rfl hname (toStr_string _ _) hext (toStr_string _ _)
  ⟨(w1.1 "a.png" rfl).trans (by simp),
   (w2.1 nulPath rfl).trans (by simp [nulPath]),
   w3.2.1 [137, 80] rfl,
   w1.2.2.2.1 (.stream "a.png") rfl (by decide) (fileOf_example _),
   p3.1,
   p3.2 (by decide),
   (w4.2.2.2.2.2 (options_example _ _)).1 _ (fileOf_objectSource _),
   (w5.2.2.2.2.2 (by simp [optionsAccepted, unprintable, orDefault, truthy, typeOf, propTruthy,
      getProp, List.lookup])).2.1 unprintable objectError
      (by simp [orDefault, getProp, List.lookup]) (toStr_unprintable _)⟩

/-- C10, as stated, fails: two uploads that omit `options`, made when the clock
reads 1000 and 2000, use the default file names `Image-1000` and `Image-2000`. -/
theorem default_fileName_differs_between_calls :
    partFilenames (uploadImage (exampleHost (.ok userResponse)) exampleClient 1000
      (.string "a.png") (.string "d.com") .undefined) = [["Image-1000.png"]] ∧
    partFilenames (uploadImage (exampleHost (.ok userResponse)) exampleClient 2000
      (.string "a.png") (.string "d.com") .undefined) = [["Image-2000.png"]] ∧
    partFilenames (uploadImage (exampleHost (.ok userResponse)) exampleClient 1000
      (.string "a.png") (.string "d.com") .undefined) ≠
    partFilenames (uploadImage (exampleHost (.ok userResponse)) exampleClient 2000
      (.string "a.png") (.string "d.com") .undefined) := by
  have e1 : partFilenames (uploadImage (exampleHost (.ok userResponse)) exampleClient 1000
      (.string "a.png") (.string "d.com") .undefined) = [["Image-1000.png"]] := by
    rw [upload_default _ _ 1000 _ _ (.stream "a.png") source_example domain_example
      (fileOf_example _) (by decide), partFilenames_single, decimalInt_1000]
    rfl
  have e2 : partFilenames (uploadImage (exampleHost (.ok userResponse)) exampleClient 2000
      (.string "a.png") (.string "d.com") .undefined) = [["Image-2000.png"]] := by
    rw [upload_default _ _ 2000 _ _ (.stream "a.png") source_example domain_example
      (fileOf_example _) (by decide), partFilenames_single, decimalInt_2000]
    rfl
  refine ⟨e1, e2, ?_⟩
  rw [e1, e2]
  decide

theorem decimalInt_injective (a b : Int) (ha : 0 ≤ a) (hb : 0 ≤ b)
    (hab : decimalInt a = decimalInt b) : a = b := by
  simp only [decimalInt, not_lt.mpr ha, not_lt.mpr hb, if_false] at hab
  have := decimal_injective _ _ hab
  omega

theorem default_name_injective (s t : String)
    (hst : "Image-" ++ s ++ ".png" = "Image-" ++ t ++ ".png") : s = t := by
  have hdata := congrArg String.data hst
  simp only [String.data_append] at hdata
  have h1 := List.append_cancel_right hdata
  have h2 := List.append_cancel_left h1
  exact String.ext h2

/-- C10, amended. The default options are computed at each call: an upload that
omits `options`, passes the checks on source and domain and can build the
content of its part, made when the clock reads `t`, names its part
`Image-<t>.png`, with `t` in decimal; so two such uploads made at different
clock readings use different default file names. -/
theorem default_fileName_uses_call_time (h : Host) (c : Client) (t1 t2 : Int)
    (imagePath domain file : JSVal)
    (hs : sourceAccepted imagePath = true) (hd : domainAccepted domain = true)
    (hf : fileOf h imagePath = .ok file)
    (h1 : 0 ≤ t1) (h1small : t1 < 10 ^ 21) (h2 : 0 ≤ t2) (h2small : t2 < 10 ^ 21) :
    partFilenames (uploadImage h c t1 imagePath domain .undefined)
      = [["Image-" ++ decimalInt t1 ++ ".png"]] ∧
    partFilenames (uploadImage h c t2 imagePath domain .undefined)
      = [["Image-" ++ decimalInt t2 ++ ".png"]] ∧
    (t1 ≠ t2 →
      partFilenames (uploadImage h c t1 imagePath domain .undefined) ≠
      partFilenames (uploadImage h c t2 imagePath domain .undefined)) := by
  have hs1 : t1.natAbs < 10 ^ 21 := by omega
  have hs2 : t2.natAbs < 10 ^ 21 := by omega
  have e1 : partFilenames (uploadImage h c t1 imagePath domain .undefined)
      = [["Image-" ++ decimalInt t1 ++ ".png"]] := by
    rw [upload_default h c t1 imagePath domain file hs hd hf hs1, partFilenames_single]
  have e2 : partFilenames (uploadImage h c t2 imagePath domain .undefined)
      = [["Image-" ++ decimalInt t2 ++ ".png"]] := by
    rw [upload_default h c t2 imagePath domain file hs hd hf hs2, partFilenames_single]
  refine ⟨e1, e2, ?_⟩
  intro hne heq
  rw [e1, e2] at heq
  simp only [List.cons.injEq, and_true] at heq
  exact hne (decimalInt_injective t1 t2 h1 h2 (default_name_injective _ _ heq))

theorem default_fileName_uses_call_time_witness :
    partFilenames (uploadImage (exampleHost (.ok userResponse)) exampleClient 1000
      (.string "a.png") (.string "d.com") .undefined)
      = [["Image-" ++ decimalInt 1000 ++ ".png"]] ∧
    partFilenames (uploadImage (exampleHost (.ok userResponse)) exampleClient 2000
      (.string "a.png") (.string "d.com") .undefined)
      = [["Image-" ++ decimalInt 2000 ++ ".png"]] ∧
    partFilenames (uploadImage (exampleHost (.ok userResponse)) exampleClient 1000
      (.string "a.png") (.string "d.com") .undefined) ≠
    partFilenames (uploadImage (exampleHost (.ok userResponse)) exampleClient 2000
      (.string "a.png") (.string "d.com") .undefined) :=
  have w := default_fileName_uses_call_time (exampleHost (.ok userResponse)) exampleClient
    1000 2000 (.string "a.png") (.string "d.com") (.stream "a.png") source_example
    domain_example (fileOf_example _) (by decide) (by decide) (by decide) (by decide)
  ⟨w.1, w.2.1, w.2.2 (by decide)⟩

end Tixte
